import Mathlib

/-!
Shallow embedding of `pox/openflow/topology.py`: the OpenFlow/topology
adaptor.  Python dictionaries (`self.ports`, the topology store) are
modelled as association lists with unique keys; Python object identity is
modelled by giving every allocated entity a fresh numeric identity token
drawn from a monotone counter (the arena-and-index reading of pointer
identity); in-place mutation of an object is modelled by replacing the
stored record at its key while keeping its identity token.  Python
assertion failures and `KeyError`s are modelled by returning `none` from
the handler functions; the dispatch layer (`topoStep`) then re-applies
the in-place mutations such an exception leaves behind in the source.
-/

set_option autoImplicit false

/-! ## Association lists (Python `dict` with unique keys) -/

def lookupA {α : Type} : List (Nat × α) → Nat → Option α
  | [], _ => none
  | (k', v) :: t, k => if k' = k then some v else lookupA t k

def insertA {α : Type} : List (Nat × α) → Nat → α → List (Nat × α)
  | [], k, v => [(k, v)]
  | (k', v') :: t, k, v =>
    if k' = k then (k, v) :: t else (k', v') :: insertA t k v

def eraseA {α : Type} : List (Nat × α) → Nat → List (Nat × α)
  | [], _ => []
  | (k', v') :: t, k => if k' = k then t else (k', v') :: eraseA t k

def keysA {α : Type} (l : List (Nat × α)) : List Nat := l.map Prod.fst

@[simp] theorem lookupA_nil {α : Type} (k : Nat) : lookupA ([] : List (Nat × α)) k = none := rfl

theorem lookupA_cons {α : Type} (k' : Nat) (v : α) (t : List (Nat × α)) (k : Nat) :
    lookupA ((k', v) :: t) k = if k' = k then some v else lookupA t k := rfl

theorem lookupA_insertA {α : Type} (l : List (Nat × α)) (k : Nat) (v : α) (k' : Nat) :
    lookupA (insertA l k v) k' = if k = k' then some v else lookupA l k' := by
  induction l with
  | nil => simp [insertA, lookupA_cons]
  | cons hd t ih =>
    obtain ⟨k₀, v₀⟩ := hd
    by_cases h : k₀ = k
    · subst h
      by_cases h' : k₀ = k' <;> simp [insertA, lookupA_cons, h']
    · simp only [insertA, if_neg h, lookupA_cons, ih]
      by_cases h' : k₀ = k'
      · subst h'
        have hne : ¬ k = k₀ := fun hk => h hk.symm
        simp [hne]
      · simp [h']

theorem lookupA_insertA_self {α : Type} (l : List (Nat × α)) (k : Nat) (v : α) :
    lookupA (insertA l k v) k = some v := by
  simp [lookupA_insertA]

theorem lookupA_insertA_other {α : Type} (l : List (Nat × α)) (k : Nat) (v : α) (k' : Nat)
    (h : k ≠ k') : lookupA (insertA l k v) k' = lookupA l k' := by
  simp [lookupA_insertA, h]

theorem insertA_lookup_self {α : Type} (l : List (Nat × α)) (k : Nat) (v : α)
    (h : lookupA l k = some v) : insertA l k v = l := by
  induction l with
  | nil => simp [lookupA] at h
  | cons hd t ih =>
    obtain ⟨k₀, v₀⟩ := hd
    by_cases hk : k₀ = k
    · subst hk
      simp [lookupA_cons] at h
      simp [insertA, h]
    · simp [lookupA_cons, hk] at h
      simp [insertA, hk, ih h]

theorem mem_insertA {α : Type} (l : List (Nat × α)) (k : Nat) (v : α) (x : Nat × α)
    (h : x ∈ insertA l k v) : x = (k, v) ∨ x ∈ l := by
  induction l with
  | nil => simpa [insertA] using h
  | cons hd t ih =>
    obtain ⟨k₀, v₀⟩ := hd
    by_cases hk : k₀ = k
    · subst hk
      simp [insertA] at h
      rcases h with h | h
      · exact Or.inl (by simp [h])
      · exact Or.inr (by simp [h])
    · simp [insertA, hk] at h
      rcases h with h | h
      · exact Or.inr (by simp [h])
      · rcases ih h with h' | h'
        · exact Or.inl h'
        · exact Or.inr (by simp [h'])

theorem mem_eraseA {α : Type} (l : List (Nat × α)) (k : Nat) (x : Nat × α)
    (h : x ∈ eraseA l k) : x ∈ l := by
  induction l with
  | nil => simp [eraseA] at h
  | cons hd t ih =>
    obtain ⟨k₀, v₀⟩ := hd
    by_cases hk : k₀ = k
    · simp [eraseA, hk] at h
      exact List.mem_cons_of_mem _ h
    · simp [eraseA, hk] at h
      rcases h with h | h
      · exact by simp [h]
      · exact List.mem_cons_of_mem _ (ih h)

theorem keysA_insertA {α : Type} (l : List (Nat × α)) (k : Nat) (v : α) (k' : Nat) :
    k' ∈ keysA (insertA l k v) ↔ k' = k ∨ k' ∈ keysA l := by
  induction l with
  | nil => simp [insertA, keysA]
  | cons hd t ih =>
    obtain ⟨k₀, v₀⟩ := hd
    by_cases hk : k₀ = k
    · subst hk
      simp [insertA, keysA]
    · simp only [insertA, if_neg hk, keysA, List.map_cons, List.mem_cons]
      constructor
      · rintro (h | h)
        · exact Or.inr (Or.inl h)
        · rcases (ih.1 h) with h' | h'
          · exact Or.inl h'
          · exact Or.inr (Or.inr h')
      · rintro (h | h | h)
        · exact Or.inr (ih.2 (Or.inl h))
        · exact Or.inl h
        · exact Or.inr (ih.2 (Or.inr h))

theorem lookupA_isSome_iff_mem {α : Type} (l : List (Nat × α)) (k : Nat) :
    (lookupA l k).isSome = true ↔ k ∈ keysA l := by
  induction l with
  | nil => simp [keysA]
  | cons hd t ih =>
    obtain ⟨k₀, v₀⟩ := hd
    by_cases hk : k₀ = k
    · subst hk; simp [lookupA_cons, keysA]
    · simp [lookupA_cons, hk, keysA, Ne.symm hk] at ih ⊢
      exact ih

theorem lookupA_eq_none_iff {α : Type} (l : List (Nat × α)) (k : Nat) :
    lookupA l k = none ↔ k ∉ keysA l := by
  rw [← lookupA_isSome_iff_mem]
  cases h : lookupA l k <;> simp [h]

theorem nodup_keysA_insertA {α : Type} (l : List (Nat × α)) (k : Nat) (v : α)
    (h : (keysA l).Nodup) : (keysA (insertA l k v)).Nodup := by
  induction l with
  | nil => simp [insertA, keysA]
  | cons hd t ih =>
    obtain ⟨k₀, v₀⟩ := hd
    simp only [keysA, List.map_cons, List.nodup_cons] at h
    by_cases hk : k₀ = k
    · subst hk
      simpa [insertA, keysA, List.nodup_cons] using h
    · simp only [insertA, if_neg hk, keysA, List.map_cons, List.nodup_cons]
      refine ⟨fun hmem => ?_, ih h.2⟩
      rcases (keysA_insertA t k v k₀).1 hmem with h' | h'
      · exact hk h'
      · exact h.1 h'

theorem lookupA_eraseA {α : Type} (l : List (Nat × α)) (k : Nat) (k' : Nat)
    (hnd : (keysA l).Nodup) :
    lookupA (eraseA l k) k' = if k = k' then none else lookupA l k' := by
  induction l with
  | nil => simp [eraseA]
  | cons hd t ih =>
    obtain ⟨k₀, v₀⟩ := hd
    simp only [keysA, List.map_cons, List.nodup_cons] at hnd
    by_cases hk : k₀ = k
    · subst hk
      simp only [eraseA, if_pos rfl]
      by_cases hk' : k₀ = k'
      · subst hk'
        simp only [if_pos rfl]
        exact (lookupA_eq_none_iff t k₀).2 hnd.1
      · simp [lookupA_cons, hk', if_neg hk']
    · simp only [eraseA, if_neg hk, lookupA_cons]
      by_cases hk' : k₀ = k'
      · subst hk'
        have : k ≠ k₀ := fun h => hk h.symm
        simp [this]
      · simp [hk', ih hnd.2]

theorem nodup_keysA_eraseA {α : Type} (l : List (Nat × α)) (k : Nat)
    (h : (keysA l).Nodup) : (keysA (eraseA l k)).Nodup := by
  induction l with
  | nil => simp [eraseA, keysA]
  | cons hd t ih =>
    obtain ⟨k₀, v₀⟩ := hd
    simp only [keysA, List.map_cons, List.nodup_cons] at h
    by_cases hk : k₀ = k
    · simpa [eraseA, hk, keysA] using h.2
    · simp only [eraseA, if_neg hk, keysA, List.map_cons, List.nodup_cons]
      refine ⟨fun hmem => ?_, ih h.2⟩
      simp only [List.mem_map] at hmem
      obtain ⟨x, hx, hxk⟩ := hmem
      exact h.1 (List.mem_map.2 ⟨x, mem_eraseA t k x hx, hxk⟩)

theorem lookupA_filter {α : Type} (l : List (Nat × α)) (p : Nat → Bool) (k : Nat)
    (hnd : (keysA l).Nodup) :
    lookupA (l.filter (fun kv => p kv.1)) k = if p k then lookupA l k else none := by
  induction l with
  | nil => simp
  | cons hd t ih =>
    obtain ⟨k₀, v₀⟩ := hd
    simp only [keysA, List.map_cons, List.nodup_cons] at hnd
    rw [List.filter_cons]
    by_cases hk : k₀ = k
    · subst hk
      by_cases hp : p k₀
      · simp [hp, lookupA_cons]
      · simp only [hp, Bool.false_eq_true, if_false]
        rw [ih hnd.2]
        simp [hp]
    · by_cases hp : p k₀
      · simp only [hp, if_true, lookupA_cons, if_neg hk]
        exact ih hnd.2
      · simp only [hp, Bool.false_eq_true, if_false]
        rw [ih hnd.2]
        simp [lookupA_cons, hk]

/-! ## Data model

Mirrors the classes of `pox/openflow/topology.py`.  The `pid`/`sid` fields
are identity tokens modelling Python object identity (never written by any
source operation after allocation). -/

/-- Reconnect grace window, `RECONNECT_TIMEOUT = 30` in the source. -/
def RECONNECT_TIMEOUT : Nat := 30

/-- Modelled from the spec: the OpenFlow 1.0 constants of
`libopenflow_01` (not part of this repository's source tree): the
controller pseudo-port and the three port-status reason codes
(reasonCode ∈ \x7badd, delete, modify\x7d). -/
def OFPP_CONTROLLER : Nat := 0xfffd

/-- Modelled from the spec: `OFPPR_ADD` reason code of `libopenflow_01`. -/
def OFPPR_ADD : Nat := 0

/-- Modelled from the spec: `OFPPR_DELETE` reason code of `libopenflow_01`. -/
def OFPPR_DELETE : Nat := 1

/-- Modelled from the spec: `OFPPR_MODIFY` reason code of `libopenflow_01`. -/
def OFPPR_MODIFY : Nat := 2

/-- An `ofp_phy_port` structure: the per-port descriptor carried by the
handshake (features reply) and by port-status events. -/
structure OFPhyPort where
  port_no : Nat
  hw_addr : Nat
  name : String
  config : Nat
  state : Nat
deriving DecidableEq, Repr

/-- The handshake info carried by a ConnectionUp event (`event.ofp`, an
`ofp_features_reply`): capability bitmask and complete port list. -/
structure OFFeaturesReply where
  capabilities : Nat
  ports : List OFPhyPort
deriving DecidableEq, Repr

/-- `OpenFlowPort`.  `pid` is the identity token; `number`, `hwAddr` and
`name` come from `Port.__init__`; `_config`/`_state`/`exists_`/`entities`
mirror the fields of the same names (`exists` in the source); `entities`
holds the identity tokens of neighbor switch entities (a Python `set`). -/
structure OpenFlowPort where
  pid : Nat
  number : Nat
  hwAddr : Nat
  name : String
  isController : Bool
  _config : Nat
  _state : Nat
  exists_ : Bool
  entities : List Nat
deriving DecidableEq, Repr

/-- `OpenFlowPort._update(ofp)`: asserts that name and port number are
unchanged, then overwrites hardware address, config and state in place.
`none` models the Python `AssertionError`. -/
def OpenFlowPort._update (p : OpenFlowPort) (ofp : OFPhyPort) : Option OpenFlowPort :=
  if p.name = ofp.name then
    if p.number = ofp.port_no then
      some { p with hwAddr := ofp.hw_addr, _config := ofp.config, _state := ofp.state }
    else none
  else none

/-- `OpenFlowPort.__init__(ofp)`: a freshly created port entity with
identity token `pid`. -/
def OpenFlowPort.make (ofp : OFPhyPort) (pid : Nat) : OpenFlowPort :=
  { pid := pid
    number := ofp.port_no
    hwAddr := ofp.hw_addr
    name := ofp.name
    isController := ofp.port_no = OFPP_CONTROLLER
    _config := ofp.config
    _state := ofp.state
    exists_ := true
    entities := [] }

/-- `OpenFlowPort.addEntity(entity, single)`: with `single` the neighbor
set is replaced by the singleton, otherwise the entity is added to the
set. -/
def OpenFlowPort.addEntity (p : OpenFlowPort) (sid : Nat) (single : Bool) : OpenFlowPort :=
  if single then { p with entities := [sid] }
  else if sid ∈ p.entities then p
  else { p with entities := p.entities ++ [sid] }

/-- Python `set.remove` on a port's neighbor set: removes the element if
present, raises `KeyError` (modelled as `none`) if absent. -/
def OpenFlowPort.entitiesRemove (p : OpenFlowPort) (sid : Nat) : Option OpenFlowPort :=
  if sid ∈ p.entities then some { p with entities := p.entities.erase sid }
  else none

/-- `OpenFlowSwitch`.  `sid` is the identity token; `connection` the
optional live connection handle (a numeric handle id); `_listeners`
models whether the per-connection listeners installed by
`listenTo(connection, prefix="con")` are active; `_reconnectTimeout` the
optional pending reconnect timer (a numeric one-shot timer id). -/
structure OpenFlowSwitch where
  sid : Nat
  dpid : Nat
  ports : List (Nat × OpenFlowPort)
  capabilities : Nat
  connection : Option Nat
  _listeners : Bool
  _reconnectTimeout : Option Nat
deriving DecidableEq, Repr

/-- `OpenFlowSwitch.__init__(dpid)` with identity token `sid`. -/
def OpenFlowSwitch.make (dpid sid : Nat) : OpenFlowSwitch :=
  { sid := sid
    dpid := dpid
    ports := []
    capabilities := 0
    connection := none
    _listeners := false
    _reconnectTimeout := none }

/-- Phase one of the full-mode port reconciliation of `_setConnection`:
the `for p in ofp.ports` loop.  Tracked numbers are updated in place
(`_update`, which can fail its assertions), untracked ones get a fresh
`OpenFlowPort`; `fresh` is the allocation counter for identity tokens. -/
def applyReported : List (Nat × OpenFlowPort) → List OFPhyPort → Nat →
    Option (List (Nat × OpenFlowPort) × Nat)
  | tbl, [], fresh => some (tbl, fresh)
  | tbl, p :: ps, fresh =>
    match lookupA tbl p.port_no with
    | some pe =>
      match pe._update p with
      | some pe' => applyReported (insertA tbl p.port_no pe') ps fresh
      | none => none
    | none => applyReported (insertA tbl p.port_no (OpenFlowPort.make p fresh)) ps (fresh + 1)

/-- Full-mode port reconciliation of `_setConnection`: after the update
loop, every previously tracked port number untouched by the reported
list is marked not existing and deleted from the table.  Returns the new
table, the removed port objects (with their `exists_` flag cleared, as
the source mutates them before `del`), and the allocation counter. -/
def updatePorts (tbl : List (Nat × OpenFlowPort)) (ps : List OFPhyPort) (fresh : Nat) :
    Option (List (Nat × OpenFlowPort) × List OpenFlowPort × Nat) :=
  match applyReported tbl ps fresh with
  | none => none
  | some (tbl', fresh') =>
    let keep : Nat → Bool := fun k => ps.any (fun p => p.port_no = k)
    let removed := ((tbl.filter (fun kv => !(keep kv.1))).map
      (fun kv => { kv.2 with exists_ := false }))
    some (tbl'.filter (fun kv => keep kv.1), removed, fresh')

/-- `OpenFlowSwitch._setConnection(connection, ofp)`: drop the listeners
of the old connection, install the new handle, cancel a pending
reconnect timer, arm a fresh one when disconnecting, update capabilities
and run the full port reconciliation when handshake info is given, and
listen to the new connection.  `none` models an `AssertionError` escaping
from the port reconciliation. -/
def OpenFlowSwitch._setConnection (sw : OpenFlowSwitch) (conn : Option Nat)
    (ofp : Option OFFeaturesReply) (fresh : Nat) : Option (OpenFlowSwitch × Nat) :=
  let sw := { sw with _listeners := false }
  let sw := { sw with connection := conn }
  let sw := { sw with _reconnectTimeout := none }
  let armed : OpenFlowSwitch × Nat :=
    if conn.isNone then ({ sw with _reconnectTimeout := some fresh }, fresh + 1)
    else (sw, fresh)
  let sw := armed.1
  let fresh := armed.2
  match ofp with
  | none =>
    some (if conn.isSome then { sw with _listeners := true } else sw, fresh)
  | some r =>
    match updatePorts sw.ports r.ports fresh with
    | none => none
    | some (tbl, _removed, fresh) =>
      let sw := { sw with capabilities := r.capabilities, ports := tbl }
      some (if conn.isSome then { sw with _listeners := true } else sw, fresh)

/-- `OpenFlowSwitch._timer_ReconnectTimeout`, restricted to the object
mutation it performs: clearing the pending-timer reference.  (The store
removal and the SwitchLeave event are modelled in the state-level
`fireReconnectTimeout`.) -/
def OpenFlowSwitch._timer_ReconnectTimeoutObj (sw : OpenFlowSwitch) : OpenFlowSwitch :=
  { sw with _reconnectTimeout := none }

/-- `OpenFlowSwitch._handle_con_PortStatus`: incremental port-status
reconciliation.  Returns the updated switch, the port objects removed by
a delete (mutated to not-existing before removal), and the allocation
counter; `none` models a `KeyError` (modify on an untracked number) or a
failed assertion (add on a tracked number, unknown reason code, or a
name/number change). -/
def OpenFlowSwitch._handle_con_PortStatus (sw : OpenFlowSwitch) (reason : Nat)
    (p : OFPhyPort) (fresh : Nat) : Option (OpenFlowSwitch × List OpenFlowPort × Nat) :=
  if reason = OFPPR_DELETE then
    match lookupA sw.ports p.port_no with
    | some pe =>
      some ({ sw with ports := eraseA sw.ports p.port_no },
            [{ pe with exists_ := false }], fresh)
    | none => some (sw, [], fresh)
  else if reason = OFPPR_MODIFY then
    match lookupA sw.ports p.port_no with
    | some pe =>
      match pe._update p with
      | some pe' => some ({ sw with ports := insertA sw.ports p.port_no pe' }, [], fresh)
      | none => none
    | none => none
  else if reason = OFPPR_ADD then
    if (lookupA sw.ports p.port_no).isSome then none
    else some ({ sw with ports := insertA sw.ports p.port_no (OpenFlowPort.make p fresh) },
               [], fresh + 1)
  else none

/-! ## State-level model: topology store, events, handlers -/

/-- Outward notifications and warnings raised by the adaptor. -/
inductive Ev where
  | join (sid : Nat)
  | leave (sid : Nat)
  | warnDuplicate (dpid : Nat)
  | warnUnknownDisconnect (dpid : Nat)
  | warnStaleDisconnect (dpid : Nat)
deriving DecidableEq, Repr

/-- The topology store plus the adaptor-visible event trace.  `store` is
the entity registry keyed by dpid (`getEntityByID`/`addEntity`/
`removeEntity`); `nextId` the allocation counter for identity tokens and
timer ids; `events` the append-only trace of notifications. -/
structure TopoState where
  store : List (Nat × OpenFlowSwitch)
  nextId : Nat
  events : List Ev
deriving DecidableEq, Repr

def initTopoState : TopoState := { store := [], nextId := 0, events := [] }

/-- `OpenFlowTopology._handle_openflow_ConnectionUp`: look the entity up
by dpid, create it if absent, warn on a duplicate connection, run
`_setConnection` with the handshake, and register/announce a newly
created entity.  `none` models an assertion error escaping from the port
reconciliation. -/
def _handle_openflow_ConnectionUp (st : TopoState) (dpid conn : Nat)
    (ofp : OFFeaturesReply) : Option TopoState :=
  match lookupA st.store dpid with
  | none =>
    let sw := OpenFlowSwitch.make dpid st.nextId
    match sw._setConnection (some conn) (some ofp) (st.nextId + 1) with
    | none => none
    | some (sw, fresh) =>
      some { store := insertA st.store dpid sw
             nextId := fresh
             events := st.events ++ [Ev.join sw.sid] }
  | some sw =>
    let warn : List Ev := if sw.connection.isSome then [Ev.warnDuplicate dpid] else []
    match sw._setConnection (some conn) (some ofp) st.nextId with
    | none => none
    | some (sw, fresh) =>
      some { store := insertA st.store dpid sw
             nextId := fresh
             events := st.events ++ warn }

/-- `OpenFlowTopology._handle_openflow_ConnectionDown`: warn on an
unknown dpid; otherwise warn if the switch was not connected and clear
the connection handle (directly, without touching timer or listeners). -/
def _handle_openflow_ConnectionDown (st : TopoState) (dpid : Nat) : TopoState :=
  match lookupA st.store dpid with
  | none => { st with events := st.events ++ [Ev.warnUnknownDisconnect dpid] }
  | some sw =>
    let warn : List Ev := if sw.connection.isNone then [Ev.warnStaleDisconnect dpid] else []
    { st with store := insertA st.store dpid { sw with connection := none }
              events := st.events ++ warn }

/-- Modelled from the spec: a disconnect triggers both
`OpenFlowSwitch._handle_con_ConnectionDown` (= `_setConnection(None)`, for
the switch listening to its connection) and
`OpenFlowTopology._handle_openflow_ConnectionDown`.  The event plumbing
that orders the two (`pox.openflow` / `of_01`, not part of this source
tree) is modelled after §4.2 of the spec, which describes disconnect
processing as one operation that clears the handle, stops observing the
old connection and arms the grace timer: the per-connection handler runs
first.  The per-connection handler only fires for a switch actually
listening to a connection. -/
def connectionDownEvent (st : TopoState) (dpid : Nat) : TopoState :=
  let st1 :=
    match lookupA st.store dpid with
    | none => st
    | some sw =>
      if sw._listeners then
        match sw._setConnection none none st.nextId with
        | none => st
        | some (sw, fresh) =>
          { st with store := insertA st.store dpid sw, nextId := fresh }
      else st
  _handle_openflow_ConnectionDown st1 dpid

/-- `OpenFlowSwitch._timer_ReconnectTimeout` as dispatched by the timer
wheel: the callback (clear the timer reference, remove the entity from
the store, raise SwitchLeave) runs only when the one-shot timer `tid` is
still the pending timer of the switch, i.e. was not canceled. -/
def fireReconnectTimeout (st : TopoState) (dpid tid : Nat) : TopoState :=
  match lookupA st.store dpid with
  | none => st
  | some sw =>
    if sw._reconnectTimeout = some tid then
      { st with store := eraseA st.store dpid
                events := st.events ++ [Ev.leave sw.sid] }
    else st

/-- A link-discovery event, `event.link` of
`openflow.discovery.LinkEvent`. -/
structure Link where
  dpid1 : Nat
  port1 : Nat
  dpid2 : Nat
  port2 : Nat
deriving DecidableEq, Repr

/-- Replace one port record of one switch in the store (Python mutates
the port object held by `sw.ports[pno]` in place). -/
def portModify (st : TopoState) (dpid pno : Nat) (f : OpenFlowPort → OpenFlowPort) :
    TopoState :=
  match lookupA st.store dpid with
  | none => st
  | some sw =>
    match lookupA sw.ports pno with
    | none => st
    | some pe =>
      { st with store := insertA st.store dpid { sw with ports := insertA sw.ports pno (f pe) } }

/-- `OpenFlowTopology._handle_openflow_discovery_LinkEvent`: resolve both
switches and both ports, dropping the event silently if any is missing;
on `added`, replace each port's neighbor set by the singleton of the
other switch; on `removed`, `set.remove` the other switch from each
port's neighbor set (raising `KeyError`, modelled `none`, when absent).
The two mutations run sequentially on shared state, as in the source. -/
def _handle_openflow_discovery_LinkEvent (st : TopoState) (l : Link) (added : Bool) :
    Option TopoState :=
  match lookupA st.store l.dpid1 with
  | none => some st
  | some sw1 =>
    match lookupA st.store l.dpid2 with
    | none => some st
    | some sw2 =>
      if (lookupA sw1.ports l.port1).isNone || (lookupA sw2.ports l.port2).isNone then
        some st
      else if added then
        some (portModify
          (portModify st l.dpid1 l.port1 (fun pe => pe.addEntity sw2.sid true))
          l.dpid2 l.port2 (fun pe => pe.addEntity sw1.sid true))
      else
        match lookupA sw1.ports l.port1 with
        | none => some st
        | some pe1 =>
          match pe1.entitiesRemove sw2.sid with
          | none => none
          | some pe1' =>
            let st' := { st with
              store := insertA st.store l.dpid1 { sw1 with ports := insertA sw1.ports l.port1 pe1' } }
            match lookupA st'.store l.dpid2 with
            | none => some st'
            | some sw2' =>
              match lookupA sw2'.ports l.port2 with
              | none => some st'
              | some pe2 =>
                match pe2.entitiesRemove sw1.sid with
                | none => none
                | some pe2' =>
                  some { st' with
                    store := insertA st'.store l.dpid2 { sw2' with ports := insertA sw2'.ports l.port2 pe2' } }

/-! ## Dispatch steps and reachable states -/

/-- The mutations the `for p in ofp.ports` loop of `_setConnection` has
already applied in place when an `_update` assertion escapes from it:
the updates of the prefix of the reported list before the failing
descriptor.  The failing descriptor itself is not applied (`_update`
asserts before mutating), and the untouched-port removal phase is never
reached. -/
def applyReportedPartial : List (Nat × OpenFlowPort) → List OFPhyPort → Nat →
    List (Nat × OpenFlowPort) × Nat
  | tbl, [], fresh => (tbl, fresh)
  | tbl, p :: ps, fresh =>
    match lookupA tbl p.port_no with
    | some pe =>
      match pe._update p with
      | some pe' => applyReportedPartial (insertA tbl p.port_no pe') ps fresh
      | none => (tbl, fresh)
    | none =>
      applyReportedPartial (insertA tbl p.port_no (OpenFlowPort.make p fresh)) ps (fresh + 1)

/-- The state `_setConnection` leaves behind when an assertion escapes
from its port loop.  The source mutates the switch in place, so by the
time the loop runs the listeners are already stripped, the new
connection handle installed, the pending timer canceled and the
capabilities updated; the loop's updates up to the failing descriptor
persist, while the untouched-port removal and the `listenTo` of the new
connection are never reached (the switch stays connected but observes
nothing). -/
def OpenFlowSwitch._setConnectionPartial (sw : OpenFlowSwitch) (conn : Option Nat)
    (ofp : Option OFFeaturesReply) (fresh : Nat) : OpenFlowSwitch × Nat :=
  let sw := { sw with _listeners := false }
  let sw := { sw with connection := conn }
  let sw := { sw with _reconnectTimeout := none }
  let armed : OpenFlowSwitch × Nat :=
    if conn.isNone then ({ sw with _reconnectTimeout := some fresh }, fresh + 1)
    else (sw, fresh)
  let sw := armed.1
  let fresh := armed.2
  match ofp with
  | none => (sw, fresh)
  | some r =>
    let res := applyReportedPartial sw.ports r.ports fresh
    ({ sw with capabilities := r.capabilities, ports := res.1 }, res.2)

/-- The state a link-removed event leaves behind when `set.remove`
raises `KeyError`: a failing first removal mutates nothing, while a
failing second removal leaves the first port's removal applied in
place. -/
def linkEventPartial (st : TopoState) (l : Link) : TopoState :=
  match lookupA st.store l.dpid1 with
  | none => st
  | some sw1 =>
    match lookupA st.store l.dpid2 with
    | none => st
    | some sw2 =>
      match lookupA sw1.ports l.port1 with
      | none => st
      | some pe1 =>
        match pe1.entitiesRemove sw2.sid with
        | none => st
        | some pe1' =>
          { st with
            store := insertA st.store l.dpid1
              { sw1 with ports := insertA sw1.ports l.port1 pe1' } }

/-- One inbound event for the adaptor's topology machinery. -/
inductive TopoOp where
  | connUp (dpid conn : Nat) (ofp : OFFeaturesReply)
  | connDown (dpid : Nat)
  | timerFire (dpid tid : Nat)
  | linkEv (l : Link) (added : Bool)
  | portStatus (dpid reason : Nat) (p : OFPhyPort)
deriving DecidableEq, Repr

/-- Dispatch of one event.  A Python exception escaping a handler
(`none` result) rolls nothing back: the in-place mutations applied
before the raise persist.  For a connection up on a stored entity this
is `_setConnectionPartial` (the duplicate warning precedes the raise; a
newly created entity is never registered, since `addEntity` follows the
raise); for a link-removed event the first removal persists; a failing
port-status handler mutates nothing, since its asserts and the
`KeyError`-raising lookup all precede its mutations. -/
def topoStep (st : TopoState) (op : TopoOp) : TopoState :=
  match op with
  | .connUp dpid conn ofp =>
    match _handle_openflow_ConnectionUp st dpid conn ofp with
    | some st' => st'
    | none =>
      match lookupA st.store dpid with
      | none => st
      | some sw =>
        let res := sw._setConnectionPartial (some conn) (some ofp) st.nextId
        { st with store := insertA st.store dpid res.1, nextId := res.2,
                  events := st.events ++
                    (if sw.connection.isSome then [Ev.warnDuplicate dpid] else []) }
  | .connDown dpid => connectionDownEvent st dpid
  | .timerFire dpid tid => fireReconnectTimeout st dpid tid
  | .linkEv l added =>
    match _handle_openflow_discovery_LinkEvent st l added with
    | some st' => st'
    | none => linkEventPartial st l
  | .portStatus dpid reason p =>
    match lookupA st.store dpid with
    | none => st
    | some sw =>
      match sw._handle_con_PortStatus reason p st.nextId with
      | none => st
      | some (sw, _, fresh) =>
        { st with store := insertA st.store dpid sw, nextId := fresh }

def topoRun (ops : List TopoOp) : TopoState := ops.foldl topoStep initTopoState

/-- An event whose handler raises no exception.  Only a connection up is
constrained: the other events either cannot raise or, when they do,
their surviving partial mutations touch only port neighbor sets. -/
def stepOk (st : TopoState) (op : TopoOp) : Prop :=
  match op with
  | TopoOp.connUp dpid conn ofp =>
    (_handle_openflow_ConnectionUp st dpid conn ofp).isSome = true
  | _ => True

/-- A run during which no connection-up handler raises. -/
def runOk : TopoState → List TopoOp → Prop
  | _, [] => True
  | st, op :: ops => stepOk st op ∧ runOk (topoStep st op) ops

/-! ## The dependency gate (`_resolveComponents` and component routing) -/

/-- The component-binding state of `OpenFlowTopology`.  `_wantComponents`
mirrors the attribute of the same name (`none` models Python `None`,
`some ws` a set of names); `bound` the components already bound by
`setattr(self, c, getattr(core, c))` together with
`listenTo(getattr(core, c), prefix=c)` (so `self.topology is None` iff
`"topology" ∉ bound`); `listeningCore` whether the handler for
ComponentRegistered is still attached to core; `readyLogs` how many
times the "ready" transition was logged. -/
structure AdaptorState where
  _wantComponents : Option (List String)
  bound : List String
  listeningCore : Bool
  readyLogs : Nat
  topo : TopoState
deriving DecidableEq, Repr

/-- `OpenFlowTopology._resolveComponents()`, against the set `registered`
of component names currently registered with `pox.core`.  Note that the
source's became-ready branch assigns `self.wantComponents = None` — an
attribute distinct from `self._wantComponents`, which therefore stays an
empty set rather than becoming `None`; the model keeps `_wantComponents`
as the (empty) remaining set on that branch, exactly as the source
does. -/
def _resolveComponents (a : AdaptorState) (registered : List String) :
    AdaptorState × Bool :=
  match a._wantComponents with
  | none => (a, true)
  | some ws =>
    if ws.isEmpty then ({ a with _wantComponents := none }, true)
    else
      let got := ws.filter (fun c => registered.contains c)
      let remaining := ws.filter (fun c => !(registered.contains c))
      let a := { a with bound := a.bound ++ got }
      if remaining.isEmpty then
        ({ a with _wantComponents := some remaining, readyLogs := a.readyLogs + 1 }, true)
      else
        ({ a with _wantComponents := some remaining }, false)

/-- The gate is ready exactly when `_resolveComponents` reports success
without doing further work: the unresolved set is gone or empty. -/
def gateReady (a : AdaptorState) : Bool :=
  match a._wantComponents with
  | none => true
  | some ws => ws.isEmpty

/-- `OpenFlowTopology._handle_ComponentRegistered`: re-resolve; on
success return `EventRemove`, i.e. stop listening for further
registrations. -/
def _handle_ComponentRegistered (a : AdaptorState) (registered : List String) :
    AdaptorState :=
  if a.listeningCore then
    let (a', r) := _resolveComponents a registered
    if r then { a' with listeningCore := false } else a'
  else a

/-- ConnectionUp as routed to the adaptor: the handler only runs once the
openflow component is bound (that is when `listenTo` was called on it);
it dereferences `self.topology` without a `None` check, so a connection
up while the topology component is unbound raises an `AttributeError`
(modelled `none`). -/
def adaptor_ConnectionUp (a : AdaptorState) (dpid conn : Nat) (ofp : OFFeaturesReply) :
    Option AdaptorState :=
  if !(a.bound.contains "openflow") then some a
  else if !(a.bound.contains "topology") then none
  else
    match _handle_openflow_ConnectionUp a.topo dpid conn ofp with
    | none => none
    | some t => some { a with topo := t }

/-- A link-discovery event as routed to the adaptor: delivered only once
the discovery component is bound, and dropped by the handler's
`if self.topology is None: return` guard while topology is unbound. -/
def adaptor_LinkEvent (a : AdaptorState) (l : Link) (added : Bool) : Option AdaptorState :=
  if !(a.bound.contains "openflow_discovery") then some a
  else if !(a.bound.contains "topology") then some a
  else
    match _handle_openflow_discovery_LinkEvent a.topo l added with
    | none => none
    | some t => some { a with topo := t }

/-! ## Basic lemmas about the port and switch operations -/

theorem lookupA_mem {α : Type} (l : List (Nat × α)) (k : Nat) (v : α)
    (h : lookupA l k = some v) : (k, v) ∈ l := by
  induction l with
  | nil => simp [lookupA] at h
  | cons hd t ih =>
    obtain ⟨k₀, v₀⟩ := hd
    by_cases hk : k₀ = k
    · subst hk
      simp [lookupA_cons] at h
      simp [h]
    · simp [lookupA_cons, hk] at h
      exact List.mem_cons_of_mem _ (ih h)

/-- The record produced by a successful in-place `_update`. -/
def updatedBy (pe : OpenFlowPort) (p : OFPhyPort) : OpenFlowPort :=
  { pe with hwAddr := p.hw_addr, _config := p.config, _state := p.state }

theorem _update_eq (pe : OpenFlowPort) (p : OFPhyPort) (q : OpenFlowPort)
    (h : pe._update p = some q) :
    pe.name = p.name ∧ pe.number = p.port_no ∧ q = updatedBy pe p := by
  unfold OpenFlowPort._update at h
  by_cases h1 : pe.name = p.name
  · by_cases h2 : pe.number = p.port_no
    · rw [if_pos h1, if_pos h2] at h
      injection h with h
      exact ⟨h1, h2, h.symm⟩
    · rw [if_pos h1, if_neg h2] at h
      exact absurd h (by simp)
  · rw [if_neg h1] at h
    exact absurd h (by simp)

theorem _update_of_eq (pe : OpenFlowPort) (p : OFPhyPort)
    (h1 : pe.name = p.name) (h2 : pe.number = p.port_no) :
    pe._update p = some (updatedBy pe p) := by
  unfold OpenFlowPort._update
  simp [h1, h2, updatedBy]

theorem updatedBy_self (pe : OpenFlowPort) (p : OFPhyPort)
    (h1 : pe.hwAddr = p.hw_addr) (h2 : pe._config = p.config) (h3 : pe._state = p.state) :
    updatedBy pe p = pe := by
  cases pe
  simp_all [updatedBy]

theorem _setConnection_none_none (sw : OpenFlowSwitch) (fresh : Nat) :
    sw._setConnection none none fresh =
      some ({ sw with connection := none, _listeners := false,
                      _reconnectTimeout := some fresh }, fresh + 1) := rfl

theorem _setConnection_some_eq (sw : OpenFlowSwitch) (c : Nat) (r : OFFeaturesReply)
    (fresh : Nat) (sw' : OpenFlowSwitch) (f' : Nat)
    (h : sw._setConnection (some c) (some r) fresh = some (sw', f')) :
    ∃ tbl removed, updatePorts sw.ports r.ports fresh = some (tbl, removed, f') ∧
      sw' = { sw with connection := some c, _listeners := true,
                      _reconnectTimeout := none, capabilities := r.capabilities,
                      ports := tbl } := by
  unfold OpenFlowSwitch._setConnection at h
  simp only [Option.isNone_some, Option.isSome_some, if_true, Bool.false_eq_true,
    if_false] at h
  cases hup : updatePorts sw.ports r.ports fresh with
  | none => rw [hup] at h; simp at h
  | some res =>
    obtain ⟨tbl, removed, f⟩ := res
    rw [hup] at h
    simp only [Option.some.injEq, Prod.mk.injEq] at h
    obtain ⟨hsw, hf⟩ := h
    subst hf
    exact ⟨tbl, removed, rfl, hsw.symm⟩

theorem _setConnection_some_fields (sw : OpenFlowSwitch) (c : Nat)
    (ofp : Option OFFeaturesReply) (fresh : Nat) (sw' : OpenFlowSwitch) (f' : Nat)
    (h : sw._setConnection (some c) ofp fresh = some (sw', f')) :
    sw'.sid = sw.sid ∧ sw'.dpid = sw.dpid ∧ sw'.connection = some c ∧
      sw'._reconnectTimeout = none ∧ sw'._listeners = true := by
  cases ofp with
  | none =>
    unfold OpenFlowSwitch._setConnection at h
    simp only [Option.isNone_some, Option.isSome_some, Bool.false_eq_true, if_false,
      if_true, Option.some.injEq, Prod.mk.injEq] at h
    rw [← h.1]
    exact ⟨rfl, rfl, rfl, rfl, rfl⟩
  | some r =>
    obtain ⟨tbl, removed, _, hsw⟩ := _setConnection_some_eq sw c r fresh sw' f' h
    rw [hsw]
    exact ⟨rfl, rfl, rfl, rfl, rfl⟩

/-- Events appended by handlers: counting join and leave notifications. -/
def countJoins (evs : List Ev) : Nat :=
  (evs.filter (fun e => match e with | Ev.join _ => true | _ => false)).length

def countLeaves (evs : List Ev) : Nat :=
  (evs.filter (fun e => match e with | Ev.leave _ => true | _ => false)).length

theorem countJoins_append (a b : List Ev) :
    countJoins (a ++ b) = countJoins a + countJoins b := by
  simp [countJoins]

theorem countLeaves_append (a b : List Ev) :
    countLeaves (a ++ b) = countLeaves a + countLeaves b := by
  simp [countLeaves]

theorem mem_keysA_of_lookupA {α : Type} (l : List (Nat × α)) (k : Nat) (v : α)
    (h : lookupA l k = some v) : k ∈ keysA l := by
  rw [← lookupA_isSome_iff_mem, h]
  rfl

theorem keysA_filter_mem {α : Type} (l : List (Nat × α)) (f : Nat × α → Bool) (k : Nat)
    (h : k ∈ keysA (l.filter f)) : ∃ kv, kv ∈ l ∧ kv.1 = k ∧ f kv = true := by
  simp only [keysA, List.mem_map] at h
  obtain ⟨kv, hkv, hk⟩ := h
  rw [List.mem_filter] at hkv
  exact ⟨kv, hkv.1, hk, hkv.2⟩

/-- Characterization of the `for p in ofp.ports` update loop: the
counter only grows, key uniqueness is preserved, untouched keys keep
their records, tracked reported numbers are updated in place, untracked
reported numbers get freshly allocated port entities. -/
theorem applyReported_spec (ps : List OFPhyPort) :
    ∀ tbl fresh tbl' fresh',
      (ps.map OFPhyPort.port_no).Nodup →
      applyReported tbl ps fresh = some (tbl', fresh') →
      fresh ≤ fresh' ∧
      ((keysA tbl).Nodup → (keysA tbl').Nodup) ∧
      (∀ k, (∀ p ∈ ps, p.port_no ≠ k) → lookupA tbl' k = lookupA tbl k) ∧
      (∀ p ∈ ps,
        (∀ pe, lookupA tbl p.port_no = some pe →
          pe.name = p.name ∧ pe.number = p.port_no ∧
          lookupA tbl' p.port_no = some (updatedBy pe p)) ∧
        (lookupA tbl p.port_no = none →
          ∃ g, fresh ≤ g ∧ g < fresh' ∧
            lookupA tbl' p.port_no = some (OpenFlowPort.make p g))) := by
  induction ps with
  | nil =>
    intro tbl fresh tbl' fresh' hnp h
    simp only [applyReported, Option.some.injEq, Prod.mk.injEq] at h
    obtain ⟨h1, h2⟩ := h
    subst h1
    subst h2
    exact ⟨le_refl _, fun hd => hd, fun k _ => rfl, by intro p hp; simp at hp⟩
  | cons p ps ih =>
    intro tbl fresh tbl' fresh' hnp h
    simp only [List.map_cons, List.nodup_cons, List.mem_map] at hnp
    have hnotin : ∀ q ∈ ps, q.port_no ≠ p.port_no := fun q hq heq => hnp.1 ⟨q, hq, heq⟩
    simp only [applyReported] at h
    split at h
    · rename_i pe hl
      split at h
      · rename_i pe' hu
        obtain ⟨hn1, hn2, hpe'⟩ := _update_eq pe p pe' hu
        obtain ⟨ihfresh, ihnodup, ihuntouched, ihper⟩ :=
          ih (insertA tbl p.port_no pe') fresh tbl' fresh' hnp.2 h
        refine ⟨ihfresh, fun hd => ihnodup (nodup_keysA_insertA _ _ _ hd), ?_, ?_⟩
        · intro k hk
          have hpk : p.port_no ≠ k := hk p (List.mem_cons_self _ _)
          rw [ihuntouched k (fun q hq => hk q (List.mem_cons_of_mem _ hq)),
            lookupA_insertA_other _ _ _ _ hpk]
        · intro q hq
          rcases List.mem_cons.1 hq with hq | hq
          · subst hq
            constructor
            · intro pe₀ hpe₀
              rw [hl] at hpe₀
              injection hpe₀ with hpe₀
              subst hpe₀
              refine ⟨hn1, hn2, ?_⟩
              rw [ihuntouched q.port_no hnotin, lookupA_insertA_self, hpe']
            · intro hnone
              rw [hl] at hnone
              exact absurd hnone (by simp)
          · have hne : q.port_no ≠ p.port_no := hnotin q hq
            have htr : lookupA (insertA tbl p.port_no pe') q.port_no = lookupA tbl q.port_no :=
              lookupA_insertA_other _ _ _ _ (fun hx => hne hx.symm)
            obtain ⟨ihsome, ihnone⟩ := ihper q hq
            constructor
            · intro pe₀ hpe₀
              exact ihsome pe₀ (htr.trans hpe₀)
            · intro hnone
              exact ihnone (htr.trans hnone)
      · rename_i hu
        exact absurd h (by simp)
    · rename_i hl
      obtain ⟨ihfresh, ihnodup, ihuntouched, ihper⟩ :=
        ih (insertA tbl p.port_no (OpenFlowPort.make p fresh)) (fresh + 1) tbl' fresh' hnp.2 h
      refine ⟨Nat.le_trans (Nat.le_succ _) ihfresh,
        fun hd => ihnodup (nodup_keysA_insertA _ _ _ hd), ?_, ?_⟩
      · intro k hk
        have hpk : p.port_no ≠ k := hk p (List.mem_cons_self _ _)
        rw [ihuntouched k (fun q hq => hk q (List.mem_cons_of_mem _ hq)),
          lookupA_insertA_other _ _ _ _ hpk]
      · intro q hq
        rcases List.mem_cons.1 hq with hq | hq
        · subst hq
          constructor
          · intro pe₀ hpe₀
            rw [hl] at hpe₀
            exact absurd hpe₀ (by simp)
          · intro _
            refine ⟨fresh, le_refl _, Nat.lt_of_succ_le ihfresh, ?_⟩
            rw [ihuntouched q.port_no hnotin, lookupA_insertA_self]
        · have hne : q.port_no ≠ p.port_no := hnotin q hq
          have htr : lookupA (insertA tbl p.port_no (OpenFlowPort.make p fresh)) q.port_no =
              lookupA tbl q.port_no :=
            lookupA_insertA_other _ _ _ _ (fun hx => hne hx.symm)
          obtain ⟨ihsome, ihnone⟩ := ihper q hq
          constructor
          · intro pe₀ hpe₀
            exact ihsome pe₀ (htr.trans hpe₀)
          · intro hnone
            obtain ⟨g, hg1, hg2, hg3⟩ := ihnone (htr.trans hnone)
            exact ⟨g, Nat.le_trans (Nat.le_succ _) hg1, hg2, hg3⟩

/-- End-state characterization of full-mode reconciliation. -/
theorem updatePorts_spec (tbl : List (Nat × OpenFlowPort)) (ps : List OFPhyPort)
    (fresh : Nat) (tbl' : List (Nat × OpenFlowPort)) (removed : List OpenFlowPort)
    (fresh' : Nat)
    (hnd : (keysA tbl).Nodup) (hnp : (ps.map OFPhyPort.port_no).Nodup)
    (h : updatePorts tbl ps fresh = some (tbl', removed, fresh')) :
    (∀ k ∈ keysA tbl, (∀ p ∈ ps, p.port_no ≠ k) →
      lookupA tbl' k = none ∧
      ∃ pe, lookupA tbl k = some pe ∧ { pe with exists_ := false } ∈ removed) ∧
    (∀ p ∈ ps, ∀ pe, lookupA tbl p.port_no = some pe →
      pe.name = p.name ∧ pe.number = p.port_no ∧
      lookupA tbl' p.port_no = some (updatedBy pe p)) ∧
    (∀ p ∈ ps, lookupA tbl p.port_no = none →
      ∃ g, fresh ≤ g ∧ lookupA tbl' p.port_no = some (OpenFlowPort.make p g)) ∧
    (∀ k ∈ keysA tbl', ∃ p ∈ ps, p.port_no = k) ∧
    (keysA tbl').Nodup := by
  unfold updatePorts at h
  cases hap : applyReported tbl ps fresh with
  | none => rw [hap] at h; simp at h
  | some res =>
    obtain ⟨tblMid, freshMid⟩ := res
    rw [hap] at h
    simp only [Option.some.injEq, Prod.mk.injEq] at h
    obtain ⟨htbl', hremoved, hfresh'⟩ := h
    obtain ⟨hfresh, hnodup, huntouched, hper⟩ :=
      applyReported_spec ps tbl fresh tblMid freshMid hnp hap
    have hndMid : (keysA tblMid).Nodup := hnodup hnd
    have hkeep : ∀ k, (ps.any (fun p => p.port_no = k) = true) ↔ ∃ p ∈ ps, p.port_no = k := by
      intro k
      simp [List.any_eq_true]
    refine ⟨?_, ?_, ?_, ?_, ?_⟩
    · intro k hk hnot
      have hkeepF : (ps.any (fun p => p.port_no = k)) = false := by
        by_contra hcon
        rw [Bool.not_eq_false] at hcon
        obtain ⟨p, hp, hpk⟩ := (hkeep k).1 hcon
        exact hnot p hp hpk
      constructor
      · rw [← htbl',
          lookupA_filter tblMid (fun k2 => ps.any fun p => decide (p.port_no = k2)) k hndMid,
          hkeepF]
        simp
      · obtain ⟨pe, hpe⟩ := Option.isSome_iff_exists.1 ((lookupA_isSome_iff_mem tbl k).2 hk)
        refine ⟨pe, hpe, ?_⟩
        rw [← hremoved]
        refine List.mem_map.2 ⟨(k, pe), ?_, rfl⟩
        rw [List.mem_filter]
        exact ⟨lookupA_mem tbl k pe hpe, by simp [hkeepF]⟩
    · intro p hp pe hpe
      obtain ⟨h1, h2, h3⟩ := (hper p hp).1 pe hpe
      refine ⟨h1, h2, ?_⟩
      rw [← htbl',
        lookupA_filter tblMid (fun k2 => ps.any fun q => decide (q.port_no = k2)) p.port_no hndMid]
      have hany : (ps.any (fun q => decide (q.port_no = p.port_no))) = true :=
        (hkeep p.port_no).2 ⟨p, hp, rfl⟩
      rw [hany, if_pos rfl, h3]
    · intro p hp hpe
      obtain ⟨g, hg1, _, hg3⟩ := (hper p hp).2 hpe
      refine ⟨g, hg1, ?_⟩
      rw [← htbl',
        lookupA_filter tblMid (fun k2 => ps.any fun q => decide (q.port_no = k2)) p.port_no hndMid]
      have hany : (ps.any (fun q => decide (q.port_no = p.port_no))) = true :=
        (hkeep p.port_no).2 ⟨p, hp, rfl⟩
      rw [hany, if_pos rfl, hg3]
    · intro k hk
      rw [← htbl'] at hk
      obtain ⟨kv, _, hkv1, hkv2⟩ := keysA_filter_mem tblMid _ k hk
      exact (hkeep k).1 (hkv1 ▸ hkv2)
    · rw [← htbl']
      simp only [keysA] at hndMid ⊢
      exact List.Nodup.sublist (List.Sublist.map _ (List.filter_sublist _)) hndMid

/-- Re-applying the update loop to a table whose entries already match
the reported descriptors changes nothing and allocates nothing. -/
theorem applyReported_fixed (ps : List OFPhyPort) :
    ∀ tbl fresh,
      (∀ p ∈ ps, ∃ pe, lookupA tbl p.port_no = some pe ∧ pe.name = p.name ∧
        pe.number = p.port_no ∧ pe.hwAddr = p.hw_addr ∧ pe._config = p.config ∧
        pe._state = p.state) →
      applyReported tbl ps fresh = some (tbl, fresh) := by
  induction ps with
  | nil => intro tbl fresh _; rfl
  | cons p ps ih =>
    intro tbl fresh hmatch
    obtain ⟨pe, hpe, hname, hnum, hhw, hcfg, hst⟩ := hmatch p (List.mem_cons_self _ _)
    have hupd : pe._update p = some pe := by
      rw [_update_of_eq pe p hname hnum, updatedBy_self pe p hhw hcfg hst]
    have hins : insertA tbl p.port_no pe = tbl := insertA_lookup_self tbl p.port_no pe hpe
    simp only [applyReported, hpe, hupd, hins]
    exact ih tbl fresh (fun q hq => hmatch q (List.mem_cons_of_mem _ hq))

/-! ## Claim theorems -/

/-- C4: for every switch port table and every reported port list (well
formed: distinct reported numbers) on which full-mode reconciliation
succeeds, the end state is exactly: every previously tracked number
absent from the list is marked not existing and dropped from the table;
every reported number already tracked keeps the same port entity (same
identity token, same number, name, neighbor set, existence flag and
controller flag) with hardware address, config and state overwritten
from the descriptor; every reported number not yet tracked is bound to a
freshly allocated port entity; and nothing else ends up in the table. -/
theorem C4_full_mode_reconciliation (tbl : List (Nat × OpenFlowPort)) (ps : List OFPhyPort)
    (fresh : Nat) (tbl' : List (Nat × OpenFlowPort)) (removed : List OpenFlowPort)
    (fresh' : Nat)
    (hnd : (keysA tbl).Nodup) (hnp : (ps.map OFPhyPort.port_no).Nodup)
    (h : updatePorts tbl ps fresh = some (tbl', removed, fresh')) :
    (∀ k ∈ keysA tbl, (∀ p ∈ ps, p.port_no ≠ k) →
      lookupA tbl' k = none ∧
      ∃ pe, lookupA tbl k = some pe ∧ { pe with exists_ := false } ∈ removed) ∧
    (∀ p ∈ ps, ∀ pe, lookupA tbl p.port_no = some pe →
      ∃ pe', lookupA tbl' p.port_no = some pe' ∧ pe'.pid = pe.pid ∧
        pe'.number = pe.number ∧ pe'.name = pe.name ∧ pe'.entities = pe.entities ∧
        pe'.exists_ = pe.exists_ ∧ pe'.isController = pe.isController ∧
        pe'.hwAddr = p.hw_addr ∧ pe'._config = p.config ∧ pe'._state = p.state) ∧
    (∀ p ∈ ps, lookupA tbl p.port_no = none →
      ∃ g, fresh ≤ g ∧ lookupA tbl' p.port_no = some (OpenFlowPort.make p g)) ∧
    (∀ k ∈ keysA tbl', ∃ p ∈ ps, p.port_no = k) := by
  obtain ⟨hrem, hupd, hnew, hkeys, _⟩ :=
    updatePorts_spec tbl ps fresh tbl' removed fresh' hnd hnp h
  refine ⟨hrem, ?_, hnew, hkeys⟩
  intro p hp pe hpe
  obtain ⟨_, _, h3⟩ := hupd p hp pe hpe
  exact ⟨updatedBy pe p, h3, rfl, rfl, rfl, rfl, rfl, rfl, rfl, rfl, rfl⟩

/-- Witness for C4 at a concrete instance: previous table tracks ports 1
and 2; the report keeps 1 (new hardware address/config/state), drops 2
and adds 3. -/
theorem C4_witness :
    (keysA [(1, OpenFlowPort.make ⟨1, 5, "eth0", 0, 0⟩ 0),
            (2, OpenFlowPort.make ⟨2, 6, "eth1", 0, 0⟩ 1)]).Nodup ∧
    (([⟨1, 7, "eth0", 3, 4⟩, ⟨3, 8, "eth2", 0, 0⟩] : List OFPhyPort).map
      OFPhyPort.port_no).Nodup ∧
    updatePorts
      [(1, OpenFlowPort.make ⟨1, 5, "eth0", 0, 0⟩ 0),
       (2, OpenFlowPort.make ⟨2, 6, "eth1", 0, 0⟩ 1)]
      [⟨1, 7, "eth0", 3, 4⟩, ⟨3, 8, "eth2", 0, 0⟩] 2 =
      some ([(1, OpenFlowPort.make ⟨1, 7, "eth0", 3, 4⟩ 0),
             (3, OpenFlowPort.make ⟨3, 8, "eth2", 0, 0⟩ 2)],
            [{ OpenFlowPort.make ⟨2, 6, "eth1", 0, 0⟩ 1 with exists_ := false }], 3) ∧
    (∀ p ∈ ([⟨1, 7, "eth0", 3, 4⟩, ⟨3, 8, "eth2", 0, 0⟩] : List OFPhyPort),
      lookupA [(1, OpenFlowPort.make ⟨1, 5, "eth0", 0, 0⟩ 0),
               (2, OpenFlowPort.make ⟨2, 6, "eth1", 0, 0⟩ 1)] p.port_no = none →
      ∃ g, 2 ≤ g ∧
        lookupA [(1, OpenFlowPort.make ⟨1, 7, "eth0", 3, 4⟩ 0),
                 (3, OpenFlowPort.make ⟨3, 8, "eth2", 0, 0⟩ 2)] p.port_no =
          some (OpenFlowPort.make p g)) :=
  ⟨by decide, by decide, by rfl,
    (C4_full_mode_reconciliation _ _ _ _ _ _ (by decide) (by decide) (by rfl)).2.2.1⟩

/-- C9: full-mode reconciliation is idempotent: if reconciling a port
table against a reported list succeeds, reconciling the resulting table
against the same list again succeeds, returns the identical table (same
entities, same fields), removes nothing and allocates nothing. -/
theorem C9_full_mode_idempotent (tbl : List (Nat × OpenFlowPort)) (ps : List OFPhyPort)
    (fresh : Nat) (tbl₁ : List (Nat × OpenFlowPort)) (removed₁ : List OpenFlowPort)
    (fresh₁ : Nat)
    (hnd : (keysA tbl).Nodup) (hnp : (ps.map OFPhyPort.port_no).Nodup)
    (h : updatePorts tbl ps fresh = some (tbl₁, removed₁, fresh₁)) :
    updatePorts tbl₁ ps fresh₁ = some (tbl₁, [], fresh₁) := by
  obtain ⟨hrem, hupd, hnew, hkeys, hnd₁⟩ :=
    updatePorts_spec tbl ps fresh tbl₁ removed₁ fresh₁ hnd hnp h
  have hmatch : ∀ p ∈ ps, ∃ pe, lookupA tbl₁ p.port_no = some pe ∧ pe.name = p.name ∧
      pe.number = p.port_no ∧ pe.hwAddr = p.hw_addr ∧ pe._config = p.config ∧
      pe._state = p.state := by
    intro p hp
    cases hl : lookupA tbl p.port_no with
    | some pe =>
      obtain ⟨h1, h2, h3⟩ := hupd p hp pe hl
      exact ⟨updatedBy pe p, h3, by simp [updatedBy, h1], by simp [updatedBy, h2],
        by simp [updatedBy], by simp [updatedBy], by simp [updatedBy]⟩
    | none =>
      obtain ⟨g, _, hg⟩ := hnew p hp hl
      exact ⟨OpenFlowPort.make p g, hg, rfl, rfl, rfl, rfl, rfl⟩
  have hap := applyReported_fixed ps tbl₁ fresh₁ hmatch
  have hkeepall : ∀ kv ∈ tbl₁, (ps.any fun p => decide (p.port_no = kv.1)) = true := by
    intro kv hkv
    have hmem : kv.1 ∈ keysA tbl₁ := List.mem_map.2 ⟨kv, hkv, rfl⟩
    obtain ⟨p, hp, hpk⟩ := hkeys kv.1 hmem
    rw [List.any_eq_true]
    exact ⟨p, hp, by simp [hpk]⟩
  have hfil1 : tbl₁.filter (fun kv => ps.any fun p => decide (p.port_no = kv.1)) = tbl₁ :=
    List.filter_eq_self.2 hkeepall
  have hfil2 : tbl₁.filter (fun kv => !(ps.any fun p => decide (p.port_no = kv.1))) = [] := by
    rw [List.filter_eq_nil_iff]
    intro kv hkv
    simp [hkeepall kv hkv]
  unfold updatePorts
  rw [hap]
  simp only [hfil1, hfil2, List.map_nil]

/-- Witness for C9 at the concrete instance of the C4 scenario. -/
theorem C9_witness :
    updatePorts
      [(1, OpenFlowPort.make ⟨1, 7, "eth0", 3, 4⟩ 0),
       (3, OpenFlowPort.make ⟨3, 8, "eth2", 0, 0⟩ 2)]
      [⟨1, 7, "eth0", 3, 4⟩, ⟨3, 8, "eth2", 0, 0⟩] 3 =
      some ([(1, OpenFlowPort.make ⟨1, 7, "eth0", 3, 4⟩ 0),
             (3, OpenFlowPort.make ⟨3, 8, "eth2", 0, 0⟩ 2)], [], 3) :=
  C9_full_mode_idempotent
    [(1, OpenFlowPort.make ⟨1, 5, "eth0", 0, 0⟩ 0),
     (2, OpenFlowPort.make ⟨2, 6, "eth1", 0, 0⟩ 1)]
    [⟨1, 7, "eth0", 3, 4⟩, ⟨3, 8, "eth2", 0, 0⟩] 2 _ _ _
    (by decide) (by decide) (by rfl)

/-- C10: a port's number and name are immutable: an in-place update whose
descriptor changes the name or the number fails the assertions instead of
applying, a successful in-place update changes only hardware address,
config and state (identity token, number, name, neighbor set, existence
and controller flags untouched), and an incremental modify for a tracked
port whose descriptor carries a different name fails rather than
renaming. -/
theorem C10_number_name_immutable :
    (∀ (pe : OpenFlowPort) (ofp : OFPhyPort),
      pe.name ≠ ofp.name ∨ pe.number ≠ ofp.port_no → pe._update ofp = none) ∧
    (∀ (pe : OpenFlowPort) (ofp : OFPhyPort) (pe' : OpenFlowPort),
      pe._update ofp = some pe' →
      pe'.number = pe.number ∧ pe'.name = pe.name ∧ pe'.pid = pe.pid ∧
      pe'.exists_ = pe.exists_ ∧ pe'.entities = pe.entities ∧
      pe'.isController = pe.isController ∧
      pe'.hwAddr = ofp.hw_addr ∧ pe'._config = ofp.config ∧ pe'._state = ofp.state) ∧
    (∀ (sw : OpenFlowSwitch) (p : OFPhyPort) (fresh : Nat) (pe : OpenFlowPort),
      lookupA sw.ports p.port_no = some pe → pe.name ≠ p.name →
      sw._handle_con_PortStatus OFPPR_MODIFY p fresh = none) := by
  refine ⟨?_, ?_, ?_⟩
  · intro pe ofp hne
    unfold OpenFlowPort._update
    rcases hne with hne | hne
    · rw [if_neg hne]
    · by_cases h1 : pe.name = ofp.name
      · rw [if_pos h1, if_neg hne]
      · rw [if_neg h1]
  · intro pe ofp pe' h
    obtain ⟨h1, h2, h3⟩ := _update_eq pe ofp pe' h
    subst h3
    exact ⟨rfl, rfl, rfl, rfl, rfl, rfl, rfl, rfl, rfl⟩
  · intro sw p fresh pe hl hne
    have hup : pe._update p = none := by
      unfold OpenFlowPort._update
      rw [if_neg hne]
    simp [OpenFlowSwitch._handle_con_PortStatus, OFPPR_MODIFY, OFPPR_DELETE, hl, hup]

/-- Witness for C10: renaming port 1 from eth0 to eth9 fails the update. -/
theorem C10_witness :
    (OpenFlowPort.make ⟨1, 5, "eth0", 0, 0⟩ 0)._update ⟨1, 5, "eth9", 0, 0⟩ = none :=
  C10_number_name_immutable.1 (OpenFlowPort.make ⟨1, 5, "eth0", 0, 0⟩ 0)
    ⟨1, 5, "eth9", 0, 0⟩ (Or.inl (by decide))

/-- C8 counterexample: the claim says a port-status delete for an
untracked port number is treated as an error, but the handler guards the
delete with a membership test and silently absorbs it: on a switch with
an empty port table, deleting port 4 succeeds with no state change and
no error. -/
theorem C8_counterexample :
    (OpenFlowSwitch.make 5 0)._handle_con_PortStatus OFPPR_DELETE ⟨4, 4, "p4", 0, 0⟩ 1 =
      some (OpenFlowSwitch.make 5 0, [], 1) := rfl

/-- C8 (amended): incremental port-status reconciliation: "add" creates a
fresh port entity and errors (assertion) if the number is already
tracked; "modify" updates the tracked entity in place and errors
(`KeyError`) if it is untracked; "delete" marks a tracked port not
existing and removes it from the table, but a delete for an untracked
number is a silent no-op rather than an error. -/
theorem C8_port_status_preconditions :
    (∀ (sw : OpenFlowSwitch) (p : OFPhyPort) (fresh : Nat),
      (lookupA sw.ports p.port_no).isSome →
      sw._handle_con_PortStatus OFPPR_ADD p fresh = none) ∧
    (∀ (sw : OpenFlowSwitch) (p : OFPhyPort) (fresh : Nat),
      lookupA sw.ports p.port_no = none →
      sw._handle_con_PortStatus OFPPR_ADD p fresh =
        some ({ sw with ports := insertA sw.ports p.port_no (OpenFlowPort.make p fresh) },
              [], fresh + 1)) ∧
    (∀ (sw : OpenFlowSwitch) (p : OFPhyPort) (fresh : Nat),
      lookupA sw.ports p.port_no = none →
      sw._handle_con_PortStatus OFPPR_MODIFY p fresh = none) ∧
    (∀ (sw : OpenFlowSwitch) (p : OFPhyPort) (fresh : Nat) (pe : OpenFlowPort),
      lookupA sw.ports p.port_no = some pe → pe.name = p.name → pe.number = p.port_no →
      sw._handle_con_PortStatus OFPPR_MODIFY p fresh =
        some ({ sw with ports := insertA sw.ports p.port_no (updatedBy pe p) }, [], fresh)) ∧
    (∀ (sw : OpenFlowSwitch) (p : OFPhyPort) (fresh : Nat) (pe : OpenFlowPort),
      lookupA sw.ports p.port_no = some pe →
      sw._handle_con_PortStatus OFPPR_DELETE p fresh =
        some ({ sw with ports := eraseA sw.ports p.port_no },
              [{ pe with exists_ := false }], fresh)) ∧
    (∀ (sw : OpenFlowSwitch) (p : OFPhyPort) (fresh : Nat),
      lookupA sw.ports p.port_no = none →
      sw._handle_con_PortStatus OFPPR_DELETE p fresh = some (sw, [], fresh)) := by
  refine ⟨?_, ?_, ?_, ?_, ?_, ?_⟩
  · intro sw p fresh h
    simp [OpenFlowSwitch._handle_con_PortStatus, OFPPR_ADD, OFPPR_MODIFY, OFPPR_DELETE, h]
  · intro sw p fresh h
    simp [OpenFlowSwitch._handle_con_PortStatus, OFPPR_ADD, OFPPR_MODIFY, OFPPR_DELETE, h]
  · intro sw p fresh h
    simp [OpenFlowSwitch._handle_con_PortStatus, OFPPR_MODIFY, OFPPR_DELETE, h]
  · intro sw p fresh pe h hname hnum
    have hup : pe._update p = some (updatedBy pe p) := _update_of_eq pe p hname hnum
    simp [OpenFlowSwitch._handle_con_PortStatus, OFPPR_MODIFY, OFPPR_DELETE, h, hup]
  · intro sw p fresh pe h
    simp [OpenFlowSwitch._handle_con_PortStatus, OFPPR_DELETE, h]
  · intro sw p fresh h
    simp [OpenFlowSwitch._handle_con_PortStatus, OFPPR_DELETE, h]

/-- Witness for C8 (amended): an add for an already tracked port number
errors on a concrete one-port switch. -/
theorem C8_witness :
    (lookupA [(1, OpenFlowPort.make ⟨1, 5, "eth0", 0, 0⟩ 0)] 1).isSome = true ∧
    ({ OpenFlowSwitch.make 9 3 with
       ports := [(1, OpenFlowPort.make ⟨1, 5, "eth0", 0, 0⟩ 0)] } :
        OpenFlowSwitch)._handle_con_PortStatus OFPPR_ADD ⟨1, 6, "eth0", 0, 0⟩ 4 = none :=
  ⟨by decide,
    C8_port_status_preconditions.1
      { OpenFlowSwitch.make 9 3 with ports := [(1, OpenFlowPort.make ⟨1, 5, "eth0", 0, 0⟩ 0)] }
      ⟨1, 6, "eth0", 0, 0⟩ 4 (by decide)⟩

/-! ## Link events: neighbor sets on ports -/

/-- The port record reached by `topology.getEntityByID(d).ports[q]`. -/
def lookupPort (st : TopoState) (d q : Nat) : Option OpenFlowPort :=
  match lookupA st.store d with
  | none => none
  | some sw => lookupA sw.ports q

theorem lookupPort_eq (st : TopoState) (d q : Nat) (sw : OpenFlowSwitch)
    (pe : OpenFlowPort) (hsw : lookupA st.store d = some sw)
    (hpe : lookupA sw.ports q = some pe) : lookupPort st d q = some pe := by
  unfold lookupPort
  rw [hsw]
  exact hpe

theorem portModify_lookupPort (st : TopoState) (d q : Nat)
    (f : OpenFlowPort → OpenFlowPort) (d' q' : Nat)
    (hx : (lookupPort st d q).isSome = true) :
    lookupPort (portModify st d q f) d' q' =
      if d = d' ∧ q = q' then (lookupPort st d' q').map f else lookupPort st d' q' := by
  unfold lookupPort at hx
  unfold portModify
  cases hsw : lookupA st.store d with
  | none => rw [hsw] at hx; simp at hx
  | some sw =>
    dsimp only at hx ⊢
    cases hpe : lookupA sw.ports q with
    | none => simp [hsw, hpe] at hx
    | some pe =>
      dsimp only
      unfold lookupPort
      by_cases hd : d = d'
      · subst hd
        rw [lookupA_insertA_self]
        dsimp only
        by_cases hq : q = q'
        · subst hq
          rw [lookupA_insertA_self]
          simp [hsw, hpe]
        · rw [lookupA_insertA_other _ _ _ _ hq]
          simp [hsw, hq]
      · rw [lookupA_insertA_other _ _ _ _ hd]
        simp [hd]

theorem portModify_events (st : TopoState) (d q : Nat) (f : OpenFlowPort → OpenFlowPort) :
    (portModify st d q f).events = st.events := by
  unfold portModify
  cases lookupA st.store d with
  | none => rfl
  | some sw =>
    dsimp only
    cases lookupA sw.ports q with
    | none => rfl
    | some pe => rfl

/-- C5: a link-added event drops silently (state unchanged, no error)
when either referenced switch id is unregistered or either referenced
port number is untracked; otherwise each of the two ports ends with its
neighbor set replaced by exactly the singleton of the other switch
entity (the port objects are mutated in place, keeping their identity),
and no notification is raised. -/
theorem C5_link_added :
    (∀ (st : TopoState) (l : Link) (added : Bool),
      lookupA st.store l.dpid1 = none ∨ lookupA st.store l.dpid2 = none →
      _handle_openflow_discovery_LinkEvent st l added = some st) ∧
    (∀ (st : TopoState) (l : Link) (added : Bool) (sw1 sw2 : OpenFlowSwitch),
      lookupA st.store l.dpid1 = some sw1 → lookupA st.store l.dpid2 = some sw2 →
      (lookupA sw1.ports l.port1 = none ∨ lookupA sw2.ports l.port2 = none) →
      _handle_openflow_discovery_LinkEvent st l added = some st) ∧
    (∀ (st : TopoState) (l : Link) (sw1 sw2 : OpenFlowSwitch) (pe1 pe2 : OpenFlowPort),
      lookupA st.store l.dpid1 = some sw1 → lookupA st.store l.dpid2 = some sw2 →
      lookupA sw1.ports l.port1 = some pe1 → lookupA sw2.ports l.port2 = some pe2 →
      ∃ st', _handle_openflow_discovery_LinkEvent st l true = some st' ∧
        st'.events = st.events ∧
        (∃ pe1', lookupPort st' l.dpid1 l.port1 = some pe1' ∧
          pe1'.entities = [sw2.sid] ∧ pe1'.pid = pe1.pid) ∧
        (∃ pe2', lookupPort st' l.dpid2 l.port2 = some pe2' ∧
          pe2'.entities = [sw1.sid] ∧ pe2'.pid = pe2.pid)) := by
  refine ⟨?_, ?_, ?_⟩
  · intro st l added h
    unfold _handle_openflow_discovery_LinkEvent
    cases hl1 : lookupA st.store l.dpid1 with
    | none => rfl
    | some sw1 =>
      dsimp only
      cases hl2 : lookupA st.store l.dpid2 with
      | none => rfl
      | some sw2 =>
        rcases h with h | h
        · rw [hl1] at h; exact absurd h (by simp)
        · rw [hl2] at h; exact absurd h (by simp)
  · intro st l added sw1 sw2 h1 h2 h
    unfold _handle_openflow_discovery_LinkEvent
    rw [h1]
    dsimp only
    rw [h2]
    dsimp only
    have hguard : ((lookupA sw1.ports l.port1).isNone ||
        (lookupA sw2.ports l.port2).isNone) = true := by
      rcases h with h | h <;> simp [h]
    rw [if_pos hguard]
  · intro st l sw1 sw2 pe1 pe2 h1 h2 hp1 hp2
    unfold _handle_openflow_discovery_LinkEvent
    rw [h1]
    dsimp only
    rw [h2]
    dsimp only
    have hguard : ((lookupA sw1.ports l.port1).isNone ||
        (lookupA sw2.ports l.port2).isNone) = false := by
      simp [hp1, hp2]
    rw [hguard]
    simp only [Bool.false_eq_true, if_false, if_pos rfl]
    refine ⟨_, rfl, ?_, ?_, ?_⟩
    · rw [portModify_events, portModify_events]
    · have hx1 : (lookupPort st l.dpid1 l.port1).isSome = true := by
        rw [lookupPort_eq st l.dpid1 l.port1 sw1 pe1 h1 hp1]; rfl
      have hq1 : lookupPort (portModify st l.dpid1 l.port1
          (fun pe => pe.addEntity sw2.sid true)) l.dpid1 l.port1 =
          some (pe1.addEntity sw2.sid true) := by
        rw [portModify_lookupPort st l.dpid1 l.port1 _ l.dpid1 l.port1 hx1]
        simp [lookupPort_eq st l.dpid1 l.port1 sw1 pe1 h1 hp1]
      have hx2 : (lookupPort (portModify st l.dpid1 l.port1
          (fun pe => pe.addEntity sw2.sid true)) l.dpid2 l.port2).isSome = true := by
        rw [portModify_lookupPort st l.dpid1 l.port1 _ l.dpid2 l.port2 hx1]
        by_cases hc : l.dpid1 = l.dpid2 ∧ l.port1 = l.port2
        · simp [hc, lookupPort_eq st l.dpid2 l.port2 sw2 pe2 h2 hp2]
        · simp [hc, lookupPort_eq st l.dpid2 l.port2 sw2 pe2 h2 hp2]
      rw [portModify_lookupPort _ l.dpid2 l.port2 _ l.dpid1 l.port1 hx2]
      by_cases hc : l.dpid2 = l.dpid1 ∧ l.port2 = l.port1
      · have hsw12 : sw1 = sw2 := by
          rw [hc.1] at h2
          rw [h1] at h2
          injection h2
        rw [if_pos hc, hq1]
        exact ⟨(pe1.addEntity sw2.sid true).addEntity sw1.sid true, rfl,
          by simp [OpenFlowPort.addEntity, hsw12], by simp [OpenFlowPort.addEntity]⟩
      · rw [if_neg hc, hq1]
        exact ⟨pe1.addEntity sw2.sid true, rfl,
          by simp [OpenFlowPort.addEntity], by simp [OpenFlowPort.addEntity]⟩
    · have hx1 : (lookupPort st l.dpid1 l.port1).isSome = true := by
        rw [lookupPort_eq st l.dpid1 l.port1 sw1 pe1 h1 hp1]; rfl
      have hq2 : lookupPort (portModify st l.dpid1 l.port1
          (fun pe => pe.addEntity sw2.sid true)) l.dpid2 l.port2 =
          if l.dpid1 = l.dpid2 ∧ l.port1 = l.port2
          then some ((pe2.addEntity sw2.sid true))
          else some pe2 := by
        rw [portModify_lookupPort st l.dpid1 l.port1 _ l.dpid2 l.port2 hx1]
        by_cases hc : l.dpid1 = l.dpid2 ∧ l.port1 = l.port2
        · simp [hc, lookupPort_eq st l.dpid2 l.port2 sw2 pe2 h2 hp2]
        · simp [hc, lookupPort_eq st l.dpid2 l.port2 sw2 pe2 h2 hp2]
      have hx2 : (lookupPort (portModify st l.dpid1 l.port1
          (fun pe => pe.addEntity sw2.sid true)) l.dpid2 l.port2).isSome = true := by
        rw [hq2]
        by_cases hc : l.dpid1 = l.dpid2 ∧ l.port1 = l.port2 <;> simp [hc]
      rw [portModify_lookupPort _ l.dpid2 l.port2 _ l.dpid2 l.port2 hx2]
      rw [if_pos ⟨rfl, rfl⟩, hq2]
      by_cases hc : l.dpid1 = l.dpid2 ∧ l.port1 = l.port2
      · rw [if_pos hc]
        exact ⟨_, rfl, by simp [OpenFlowPort.addEntity], by simp [OpenFlowPort.addEntity]⟩
      · rw [if_neg hc]
        exact ⟨_, rfl, by simp [OpenFlowPort.addEntity], by simp [OpenFlowPort.addEntity]⟩

/-- Witness for C5: a concrete two-switch topology where port 1 of
switch 1 already holds a neighbor; the link-added event leaves exactly
the newest neighbor on each port. -/
theorem C5_witness :
    ∃ st', _handle_openflow_discovery_LinkEvent
      { store := [(1, { OpenFlowSwitch.make 1 0 with
                        ports := [(1, { OpenFlowPort.make ⟨1, 5, "a", 0, 0⟩ 1 with
                                        entities := [99] })] }),
                  (2, { OpenFlowSwitch.make 2 2 with
                        ports := [(1, OpenFlowPort.make ⟨1, 6, "b", 0, 0⟩ 3)] })]
        nextId := 4
        events := [] } ⟨1, 1, 2, 1⟩ true = some st' ∧
      st'.events = ([] : List Ev) ∧
      (∃ pe1', lookupPort st' 1 1 = some pe1' ∧ pe1'.entities = [2] ∧ pe1'.pid = 1) ∧
      (∃ pe2', lookupPort st' 2 1 = some pe2' ∧ pe2'.entities = [0] ∧ pe2'.pid = 3) :=
  C5_link_added.2.2
    { store := [(1, { OpenFlowSwitch.make 1 0 with
                      ports := [(1, { OpenFlowPort.make ⟨1, 5, "a", 0, 0⟩ 1 with
                                      entities := [99] })] }),
                (2, { OpenFlowSwitch.make 2 2 with
                      ports := [(1, OpenFlowPort.make ⟨1, 6, "b", 0, 0⟩ 3)] })]
      nextId := 4
      events := [] } ⟨1, 1, 2, 1⟩ _ _ _ _ rfl rfl rfl rfl

/-- C6 counterexample: the claim says a link-removed event whose
switches and ports resolve is a silent no-op when the neighbor relation
is absent, but the handler calls Python `set.remove`, which raises
`KeyError` on an absent element: on a concrete two-switch topology with
empty neighbor sets the handler errors instead of no-opping. -/
theorem C6_counterexample :
    _handle_openflow_discovery_LinkEvent
      { store := [(1, { OpenFlowSwitch.make 1 0 with
                        ports := [(1, OpenFlowPort.make ⟨1, 5, "a", 0, 0⟩ 1)] }),
                  (2, { OpenFlowSwitch.make 2 2 with
                        ports := [(1, OpenFlowPort.make ⟨1, 6, "b", 0, 0⟩ 3)] })]
        nextId := 4
        events := [] } ⟨1, 1, 2, 1⟩ false = none := rfl

/-- C6 (amended): for a link-removed event whose two switches and ports
resolve: if the neighbor relation is present on both ports (and the two
(switch, port) pairs are not one and the same port), it is removed from
both ports' neighbor sets; if the relation is absent from the first
port's neighbor set, the handler raises a missing-element error
(`KeyError`) instead of being a no-op. -/
theorem C6_link_removed :
    (∀ (st : TopoState) (l : Link) (sw1 sw2 : OpenFlowSwitch) (pe1 pe2 : OpenFlowPort),
      lookupA st.store l.dpid1 = some sw1 → lookupA st.store l.dpid2 = some sw2 →
      lookupA sw1.ports l.port1 = some pe1 → lookupA sw2.ports l.port2 = some pe2 →
      ¬(l.dpid1 = l.dpid2 ∧ l.port1 = l.port2) →
      sw2.sid ∈ pe1.entities → sw1.sid ∈ pe2.entities →
      pe1.entities.Nodup → pe2.entities.Nodup →
      ∃ st', _handle_openflow_discovery_LinkEvent st l false = some st' ∧
        (∃ pe1', lookupPort st' l.dpid1 l.port1 = some pe1' ∧
          pe1'.entities = pe1.entities.erase sw2.sid ∧ sw2.sid ∉ pe1'.entities ∧
          pe1'.pid = pe1.pid) ∧
        (∃ pe2', lookupPort st' l.dpid2 l.port2 = some pe2' ∧
          pe2'.entities = pe2.entities.erase sw1.sid ∧ sw1.sid ∉ pe2'.entities ∧
          pe2'.pid = pe2.pid)) ∧
    (∀ (st : TopoState) (l : Link) (sw1 sw2 : OpenFlowSwitch) (pe1 pe2 : OpenFlowPort),
      lookupA st.store l.dpid1 = some sw1 → lookupA st.store l.dpid2 = some sw2 →
      lookupA sw1.ports l.port1 = some pe1 → lookupA sw2.ports l.port2 = some pe2 →
      sw2.sid ∉ pe1.entities →
      _handle_openflow_discovery_LinkEvent st l false = none) := by
  constructor
  · intro st l sw1 sw2 pe1 pe2 h1 h2 hp1 hp2 halias hmem1 hmem2 hnd1 hnd2
    unfold _handle_openflow_discovery_LinkEvent
    rw [h1]
    dsimp only
    rw [h2]
    dsimp only
    have hguard : ((lookupA sw1.ports l.port1).isNone ||
        (lookupA sw2.ports l.port2).isNone) = false := by
      simp [hp1, hp2]
    rw [hguard]
    simp only [Bool.false_eq_true, if_false]
    rw [hp1]
    dsimp only
    unfold OpenFlowPort.entitiesRemove
    rw [if_pos hmem1]
    dsimp only
    by_cases hd : l.dpid1 = l.dpid2
    · have hq : l.port1 ≠ l.port2 := fun hqq => halias ⟨hd, hqq⟩
      have hssw : sw2 = sw1 := by
        rw [← hd, h1] at h2
        injection h2 with h2
        exact h2.symm
      rw [← hd]
      rw [lookupA_insertA_self]
      dsimp only
      rw [lookupA_insertA_other _ _ _ _ hq]
      rw [hssw] at hp2
      rw [hp2]
      dsimp only
      rw [if_pos hmem2]
      dsimp only
      refine ⟨_, rfl, ?_, ?_⟩
      · unfold lookupPort
        rw [lookupA_insertA_self]
        dsimp only
        rw [lookupA_insertA_other _ _ _ _ (fun hx => hq hx.symm), lookupA_insertA_self]
        refine ⟨_, rfl, rfl, ?_, rfl⟩
        intro hcon
        exact ((hnd1.mem_erase_iff).1 hcon).1 rfl
      · unfold lookupPort
        rw [lookupA_insertA_self]
        dsimp only
        rw [lookupA_insertA_self]
        refine ⟨_, rfl, rfl, ?_, rfl⟩
        intro hcon
        exact ((hnd2.mem_erase_iff).1 hcon).1 rfl
    · rw [lookupA_insertA_other _ _ _ _ hd]
      rw [h2]
      dsimp only
      rw [hp2]
      dsimp only
      rw [if_pos hmem2]
      dsimp only
      refine ⟨_, rfl, ?_, ?_⟩
      · unfold lookupPort
        rw [lookupA_insertA_other _ _ _ _ (fun hx => hd hx.symm), lookupA_insertA_self]
        dsimp only
        rw [lookupA_insertA_self]
        refine ⟨_, rfl, rfl, ?_, rfl⟩
        intro hcon
        exact ((hnd1.mem_erase_iff).1 hcon).1 rfl
      · unfold lookupPort
        rw [lookupA_insertA_self]
        dsimp only
        rw [lookupA_insertA_self]
        refine ⟨_, rfl, rfl, ?_, rfl⟩
        intro hcon
        exact ((hnd2.mem_erase_iff).1 hcon).1 rfl
  · intro st l sw1 sw2 pe1 pe2 h1 h2 hp1 hp2 hmem1
    unfold _handle_openflow_discovery_LinkEvent
    rw [h1]
    dsimp only
    rw [h2]
    dsimp only
    have hguard : ((lookupA sw1.ports l.port1).isNone ||
        (lookupA sw2.ports l.port2).isNone) = false := by
      simp [hp1, hp2]
    rw [hguard]
    simp only [Bool.false_eq_true, if_false]
    rw [hp1]
    dsimp only
    unfold OpenFlowPort.entitiesRemove
    rw [if_neg hmem1]

/-- Witness for C6 (amended): removing a present relation between two
concrete switches clears it on both ports. -/
theorem C6_witness :
    ∃ st', _handle_openflow_discovery_LinkEvent
      { store := [(1, { OpenFlowSwitch.make 1 0 with
                        ports := [(1, { OpenFlowPort.make ⟨1, 5, "a", 0, 0⟩ 1 with
                                        entities := [2] })] }),
                  (2, { OpenFlowSwitch.make 2 2 with
                        ports := [(1, { OpenFlowPort.make ⟨1, 6, "b", 0, 0⟩ 3 with
                                        entities := [0] })] })]
        nextId := 4
        events := [] } ⟨1, 1, 2, 1⟩ false = some st' ∧
      (∃ pe1', lookupPort st' 1 1 = some pe1' ∧
        pe1'.entities = ([2] : List Nat).erase 2 ∧ (2 : Nat) ∉ pe1'.entities ∧
        pe1'.pid = 1) ∧
      (∃ pe2', lookupPort st' 2 1 = some pe2' ∧
        pe2'.entities = ([0] : List Nat).erase 0 ∧ (0 : Nat) ∉ pe2'.entities ∧
        pe2'.pid = 3) :=
  C6_link_removed.1
    { store := [(1, { OpenFlowSwitch.make 1 0 with
                      ports := [(1, { OpenFlowPort.make ⟨1, 5, "a", 0, 0⟩ 1 with
                                      entities := [2] })] }),
                (2, { OpenFlowSwitch.make 2 2 with
                      ports := [(1, { OpenFlowPort.make ⟨1, 6, "b", 0, 0⟩ 3 with
                                      entities := [0] })] })]
      nextId := 4
      events := [] } ⟨1, 1, 2, 1⟩ _ _ _ _ rfl rfl rfl rfl
    (by decide) (by decide) (by decide) (by decide) (by decide)

/-! ## Connection lifecycle lemmas -/

theorem insertA_insertA {α : Type} (l : List (Nat × α)) (k : Nat) (v w : α) :
    insertA (insertA l k v) k w = insertA l k w := by
  induction l with
  | nil => simp [insertA]
  | cons hd t ih =>
    obtain ⟨k₀, v₀⟩ := hd
    by_cases hk : k₀ = k
    · simp [insertA, hk]
    · simp [insertA, hk, ih]

theorem _handle_openflow_ConnectionUp_new (st st' : TopoState) (dpid c : Nat)
    (ofp : OFFeaturesReply)
    (hnew : lookupA st.store dpid = none)
    (h : _handle_openflow_ConnectionUp st dpid c ofp = some st') :
    ∃ sw f, (OpenFlowSwitch.make dpid st.nextId)._setConnection (some c) (some ofp)
        (st.nextId + 1) = some (sw, f) ∧
      st' = { store := insertA st.store dpid sw, nextId := f,
              events := st.events ++ [Ev.join sw.sid] } ∧
      sw.sid = st.nextId ∧ sw.connection = some c ∧ sw._reconnectTimeout = none ∧
      sw._listeners = true := by
  unfold _handle_openflow_ConnectionUp at h
  rw [hnew] at h
  dsimp only at h
  cases hsc : (OpenFlowSwitch.make dpid st.nextId)._setConnection (some c) (some ofp)
      (st.nextId + 1) with
  | none => rw [hsc] at h; exact absurd h (by simp)
  | some res =>
    obtain ⟨sw, f⟩ := res
    rw [hsc] at h
    dsimp only at h
    injection h with h
    obtain ⟨hsid, _, hconn, htim, hlis⟩ :=
      _setConnection_some_fields (OpenFlowSwitch.make dpid st.nextId) c (some ofp)
        (st.nextId + 1) sw f hsc
    exact ⟨sw, f, rfl, h.symm, hsid, hconn, htim, hlis⟩

theorem _handle_openflow_ConnectionUp_existing (st st' : TopoState) (dpid c : Nat)
    (ofp : OFFeaturesReply) (sw : OpenFlowSwitch)
    (hsw : lookupA st.store dpid = some sw)
    (h : _handle_openflow_ConnectionUp st dpid c ofp = some st') :
    ∃ sw' f, sw._setConnection (some c) (some ofp) st.nextId = some (sw', f) ∧
      st' = { store := insertA st.store dpid sw', nextId := f,
              events := st.events ++
                (if sw.connection.isSome then [Ev.warnDuplicate dpid] else []) } ∧
      sw'.sid = sw.sid ∧ sw'.connection = some c ∧ sw'._reconnectTimeout = none ∧
      sw'._listeners = true := by
  unfold _handle_openflow_ConnectionUp at h
  rw [hsw] at h
  dsimp only at h
  cases hsc : sw._setConnection (some c) (some ofp) st.nextId with
  | none => rw [hsc] at h; exact absurd h (by simp)
  | some res =>
    obtain ⟨sw', f⟩ := res
    rw [hsc] at h
    dsimp only at h
    injection h with h
    obtain ⟨hsid, _, hconn, htim, hlis⟩ :=
      _setConnection_some_fields sw c (some ofp) st.nextId sw' f hsc
    exact ⟨sw', f, rfl, h.symm, hsid, hconn, htim, hlis⟩

theorem connectionDownEvent_connected (st : TopoState) (dpid : Nat) (sw : OpenFlowSwitch)
    (hsw : lookupA st.store dpid = some sw) (hl : sw._listeners = true) :
    connectionDownEvent st dpid =
      { st with
        store := insertA st.store dpid
          { sw with connection := none, _listeners := false,
                    _reconnectTimeout := some st.nextId },
        nextId := st.nextId + 1,
        events := st.events ++ [Ev.warnStaleDisconnect dpid] } := by
  unfold connectionDownEvent
  rw [hsw]
  dsimp only
  rw [if_pos hl]
  rw [_setConnection_none_none]
  dsimp only
  unfold _handle_openflow_ConnectionDown
  rw [lookupA_insertA_self]
  dsimp only
  rw [insertA_insertA]
  simp

/-- C2: a reconnect timer that is still pending when it fires clears the
object's pending-timer reference, removes the entity from the topology
store and emits exactly one entity-left notification; while a connection
up arriving first cancels the timer (the switch's pending timer becomes
absent, so a later firing of the old timer is a no-op) and emits no
entity-left notification. -/
theorem C2_grace_timer :
    (∀ (st : TopoState) (dpid tid : Nat) (sw : OpenFlowSwitch),
      (keysA st.store).Nodup →
      lookupA st.store dpid = some sw →
      sw._reconnectTimeout = some tid →
      (sw._timer_ReconnectTimeoutObj)._reconnectTimeout = none ∧
      lookupA (fireReconnectTimeout st dpid tid).store dpid = none ∧
      (fireReconnectTimeout st dpid tid).events = st.events ++ [Ev.leave sw.sid]) ∧
    (∀ (st st' : TopoState) (dpid conn tid : Nat) (ofp : OFFeaturesReply)
        (sw : OpenFlowSwitch),
      lookupA st.store dpid = some sw →
      sw._reconnectTimeout = some tid →
      _handle_openflow_ConnectionUp st dpid conn ofp = some st' →
      (∃ sw', lookupA st'.store dpid = some sw' ∧ sw'._reconnectTimeout = none) ∧
      fireReconnectTimeout st' dpid tid = st' ∧
      countLeaves st'.events = countLeaves st.events) := by
  constructor
  · intro st dpid tid sw hnd hsw htid
    refine ⟨rfl, ?_, ?_⟩
    · unfold fireReconnectTimeout
      rw [hsw]
      dsimp only
      rw [if_pos htid]
      dsimp only
      rw [lookupA_eraseA st.store dpid dpid hnd]
      simp
    · unfold fireReconnectTimeout
      rw [hsw]
      dsimp only
      rw [if_pos htid]
  · intro st st' dpid conn tid ofp sw hsw htid h
    obtain ⟨sw', f, hsc, hst', hsid, hconn, htim, hlis⟩ :=
      _handle_openflow_ConnectionUp_existing st st' dpid conn ofp sw hsw h
    subst hst'
    refine ⟨⟨sw', lookupA_insertA_self _ _ _, htim⟩, ?_, ?_⟩
    · unfold fireReconnectTimeout
      dsimp only
      rw [lookupA_insertA_self]
      dsimp only
      rw [if_neg (show ¬(sw'._reconnectTimeout = some tid) by simp [htim])]
    · dsimp only
      rw [countLeaves_append]
      cases hc : sw.connection.isSome <;> simp [hc, countLeaves]

/-- Witness for C2 on a concrete one-switch state whose reconnect timer
(id 3) is pending. -/
theorem C2_witness :
    ((({ sid := 0, dpid := 1, ports := [], capabilities := 0, connection := none,
         _listeners := false, _reconnectTimeout := some 3 } :
        OpenFlowSwitch)._timer_ReconnectTimeoutObj)._reconnectTimeout = none ∧
      lookupA (fireReconnectTimeout
        { store := [(1, { sid := 0, dpid := 1, ports := [], capabilities := 0,
                          connection := none, _listeners := false,
                          _reconnectTimeout := some 3 })],
          nextId := 5, events := [] } 1 3).store 1 = none ∧
      (fireReconnectTimeout
        { store := [(1, { sid := 0, dpid := 1, ports := [], capabilities := 0,
                          connection := none, _listeners := false,
                          _reconnectTimeout := some 3 })],
          nextId := 5, events := [] } 1 3).events = ([] : List Ev) ++ [Ev.leave 0]) ∧
    ((∃ sw', lookupA ((_handle_openflow_ConnectionUp
        { store := [(1, { sid := 0, dpid := 1, ports := [], capabilities := 0,
                          connection := none, _listeners := false,
                          _reconnectTimeout := some 3 })],
          nextId := 5, events := [] } 1 7 ⟨0, []⟩).getD
        { store := [(1, { sid := 0, dpid := 1, ports := [], capabilities := 0,
                          connection := none, _listeners := false,
                          _reconnectTimeout := some 3 })],
          nextId := 5, events := [] }).store 1 = some sw' ∧
        sw'._reconnectTimeout = none) ∧
      fireReconnectTimeout ((_handle_openflow_ConnectionUp
        { store := [(1, { sid := 0, dpid := 1, ports := [], capabilities := 0,
                          connection := none, _listeners := false,
                          _reconnectTimeout := some 3 })],
          nextId := 5, events := [] } 1 7 ⟨0, []⟩).getD
        { store := [(1, { sid := 0, dpid := 1, ports := [], capabilities := 0,
                          connection := none, _listeners := false,
                          _reconnectTimeout := some 3 })],
          nextId := 5, events := [] }) 1 3 = ((_handle_openflow_ConnectionUp
        { store := [(1, { sid := 0, dpid := 1, ports := [], capabilities := 0,
                          connection := none, _listeners := false,
                          _reconnectTimeout := some 3 })],
          nextId := 5, events := [] } 1 7 ⟨0, []⟩).getD
        { store := [(1, { sid := 0, dpid := 1, ports := [], capabilities := 0,
                          connection := none, _listeners := false,
                          _reconnectTimeout := some 3 })],
          nextId := 5, events := [] }) ∧
      countLeaves ((_handle_openflow_ConnectionUp
        { store := [(1, { sid := 0, dpid := 1, ports := [], capabilities := 0,
                          connection := none, _listeners := false,
                          _reconnectTimeout := some 3 })],
          nextId := 5, events := [] } 1 7 ⟨0, []⟩).getD
        { store := [(1, { sid := 0, dpid := 1, ports := [], capabilities := 0,
                          connection := none, _listeners := false,
                          _reconnectTimeout := some 3 })],
          nextId := 5, events := [] }).events =
        countLeaves ({ store := [(1, { sid := 0, dpid := 1, ports := [],
                                       capabilities := 0, connection := none,
                                       _listeners := false,
                                       _reconnectTimeout := some 3 })],
                       nextId := 5, events := [] } : TopoState).events) :=
  ⟨C2_grace_timer.1
      { store := [(1, { sid := 0, dpid := 1, ports := [], capabilities := 0,
                        connection := none, _listeners := false,
                        _reconnectTimeout := some 3 })],
        nextId := 5, events := [] } 1 3 _ (by decide) rfl rfl,
    C2_grace_timer.2
      { store := [(1, { sid := 0, dpid := 1, ports := [], capabilities := 0,
                        connection := none, _listeners := false,
                        _reconnectTimeout := some 3 })],
        nextId := 5, events := [] } _ 1 7 3 ⟨0, []⟩ _ rfl rfl rfl⟩

/-- C1: for a switch id unknown to the store, connect, then disconnect,
then reconnect before the grace timer fires keep one and the same switch
entity registered (same identity token, never recreated), and exactly
one entity-joined notification is raised, on the first connect only;
furthermore a connection up for an already-connected switch raises a
duplicate-connection warning yet still installs the new connection
handle on the same entity, creating no entity and raising no join. -/
theorem C1_reconnect_identity :
    (∀ (st st₁ st₃ : TopoState) (dpid c₁ c₂ : Nat) (h₁ h₂ : OFFeaturesReply),
      lookupA st.store dpid = none →
      _handle_openflow_ConnectionUp st dpid c₁ h₁ = some st₁ →
      _handle_openflow_ConnectionUp (connectionDownEvent st₁ dpid) dpid c₂ h₂ = some st₃ →
      ∃ sw₁ sw₃, lookupA st₁.store dpid = some sw₁ ∧
        lookupA st₃.store dpid = some sw₃ ∧ sw₃.sid = sw₁.sid ∧
        countJoins st₁.events = countJoins st.events + 1 ∧
        countJoins st₃.events = countJoins st.events + 1) ∧
    (∀ (st st' : TopoState) (dpid c : Nat) (ofp : OFFeaturesReply) (sw : OpenFlowSwitch),
      lookupA st.store dpid = some sw →
      sw.connection.isSome = true →
      _handle_openflow_ConnectionUp st dpid c ofp = some st' →
      st'.events = st.events ++ [Ev.warnDuplicate dpid] ∧
      ∃ sw', lookupA st'.store dpid = some sw' ∧ sw'.sid = sw.sid ∧
        sw'.connection = some c ∧
        countJoins st'.events = countJoins st.events) := by
  constructor
  · intro st st₁ st₃ dpid c₁ c₂ h₁ h₂ hnew hup1 hup3
    obtain ⟨swA, f₁, hscA, hst₁, hsidA, hconnA, htimA, hlisA⟩ :=
      _handle_openflow_ConnectionUp_new st st₁ dpid c₁ h₁ hnew hup1
    subst hst₁
    rw [connectionDownEvent_connected _ dpid swA (lookupA_insertA_self _ _ _) hlisA] at hup3
    dsimp only at hup3
    rw [insertA_insertA] at hup3
    obtain ⟨swD, f₃, hscD, hst₃, hsidD, hconnD, htimD, hlisD⟩ :=
      _handle_openflow_ConnectionUp_existing _ st₃ dpid c₂ h₂ _
        (lookupA_insertA_self _ _ _) hup3
    subst hst₃
    refine ⟨swA, swD, lookupA_insertA_self _ _ _, ?_, ?_, ?_, ?_⟩
    · dsimp only
      rw [insertA_insertA]
      exact lookupA_insertA_self _ _ _
    · rw [hsidD]
    · dsimp only
      rw [countJoins_append]
      simp [countJoins]
    · dsimp only
      rw [countJoins_append, countJoins_append, countJoins_append]
      simp [countJoins]
  · intro st st' dpid c ofp sw hsw hconn hup
    obtain ⟨sw', f, hsc, hst', hsid, hconn', htim, hlis⟩ :=
      _handle_openflow_ConnectionUp_existing st st' dpid c ofp sw hsw hup
    subst hst'
    rw [hconn]
    refine ⟨rfl, sw', lookupA_insertA_self _ _ _, hsid, hconn', ?_⟩
    dsimp only
    rw [countJoins_append]
    simp [countJoins]

/-- Witness for C1: switch 5 connects (handle 10), disconnects and
reconnects (handle 11) from the empty topology; and the duplicate-connect
half at the resulting connected state. -/
theorem C1_witness :
    (∃ sw₁ sw₃,
      lookupA ((_handle_openflow_ConnectionUp initTopoState 5 10 ⟨0, []⟩).getD
        initTopoState).store 5 = some sw₁ ∧
      lookupA ((_handle_openflow_ConnectionUp (connectionDownEvent
        ((_handle_openflow_ConnectionUp initTopoState 5 10 ⟨0, []⟩).getD initTopoState) 5)
        5 11 ⟨0, []⟩).getD initTopoState).store 5 = some sw₃ ∧
      sw₃.sid = sw₁.sid ∧
      countJoins ((_handle_openflow_ConnectionUp initTopoState 5 10 ⟨0, []⟩).getD
        initTopoState).events = countJoins initTopoState.events + 1 ∧
      countJoins ((_handle_openflow_ConnectionUp (connectionDownEvent
        ((_handle_openflow_ConnectionUp initTopoState 5 10 ⟨0, []⟩).getD initTopoState) 5)
        5 11 ⟨0, []⟩).getD initTopoState).events = countJoins initTopoState.events + 1) ∧
    (((_handle_openflow_ConnectionUp
        { store := [(5, { sid := 0, dpid := 5, ports := [], capabilities := 0,
                          connection := some 10, _listeners := true,
                          _reconnectTimeout := none })],
          nextId := 1, events := [] } 5 12 ⟨0, []⟩).getD initTopoState).events =
        ([] : List Ev) ++ [Ev.warnDuplicate 5] ∧
      ∃ sw', lookupA ((_handle_openflow_ConnectionUp
        { store := [(5, { sid := 0, dpid := 5, ports := [], capabilities := 0,
                          connection := some 10, _listeners := true,
                          _reconnectTimeout := none })],
          nextId := 1, events := [] } 5 12 ⟨0, []⟩).getD initTopoState).store 5 =
          some sw' ∧ sw'.sid = 0 ∧ sw'.connection = some 12 ∧
        countJoins ((_handle_openflow_ConnectionUp
          { store := [(5, { sid := 0, dpid := 5, ports := [], capabilities := 0,
                            connection := some 10, _listeners := true,
                            _reconnectTimeout := none })],
            nextId := 1, events := [] } 5 12 ⟨0, []⟩).getD initTopoState).events =
          countJoins ({ store := [(5, { sid := 0, dpid := 5, ports := [],
                                        capabilities := 0, connection := some 10,
                                        _listeners := true,
                                        _reconnectTimeout := none })],
                        nextId := 1, events := [] } : TopoState).events) :=
  ⟨C1_reconnect_identity.1 initTopoState _ _ 5 10 11 ⟨0, []⟩ ⟨0, []⟩ rfl rfl rfl,
    C1_reconnect_identity.2
      { store := [(5, { sid := 0, dpid := 5, ports := [], capabilities := 0,
                        connection := some 10, _listeners := true,
                        _reconnectTimeout := none })],
        nextId := 1, events := [] } _ 5 12 ⟨0, []⟩ _ rfl rfl rfl⟩

/-! ## Reachable-state invariant: disconnected entities carry a timer -/

/-- Auxiliary store invariant: a stored entity with no connection handle
has a pending reconnect timer, and its per-connection listeners are
installed exactly when it is connected. -/
def SwitchInvS (store : List (Nat × OpenFlowSwitch)) : Prop :=
  ∀ kv ∈ store, (kv.2.connection = none → kv.2._reconnectTimeout ≠ none) ∧
    kv.2._listeners = kv.2.connection.isSome

theorem SwitchInvS_insert (store : List (Nat × OpenFlowSwitch)) (dpid : Nat)
    (sw : OpenFlowSwitch) (h : SwitchInvS store)
    (hsw : (sw.connection = none → sw._reconnectTimeout ≠ none) ∧
      sw._listeners = sw.connection.isSome) :
    SwitchInvS (insertA store dpid sw) := by
  intro kv hkv
  rcases mem_insertA _ _ _ _ hkv with he | he
  · rw [he]
    exact hsw
  · exact h kv he

theorem _handle_con_PortStatus_fields (sw : OpenFlowSwitch) (reason : Nat)
    (p : OFPhyPort) (fresh : Nat) (sw' : OpenFlowSwitch) (rem : List OpenFlowPort)
    (f' : Nat) (h : sw._handle_con_PortStatus reason p fresh = some (sw', rem, f')) :
    sw'.connection = sw.connection ∧ sw'._listeners = sw._listeners ∧
      sw'._reconnectTimeout = sw._reconnectTimeout := by
  unfold OpenFlowSwitch._handle_con_PortStatus at h
  split at h
  · split at h
    · simp only [Option.some.injEq, Prod.mk.injEq] at h
      obtain ⟨h1, -, -⟩ := h
      rw [← h1]
      exact ⟨rfl, rfl, rfl⟩
    · simp only [Option.some.injEq, Prod.mk.injEq] at h
      obtain ⟨h1, -, -⟩ := h
      rw [← h1]
      exact ⟨rfl, rfl, rfl⟩
  · split at h
    · split at h
      · split at h
        · simp only [Option.some.injEq, Prod.mk.injEq] at h
          obtain ⟨h1, -, -⟩ := h
          rw [← h1]
          exact ⟨rfl, rfl, rfl⟩
        · exact absurd h (by simp)
      · exact absurd h (by simp)
    · split at h
      · split at h
        · exact absurd h (by simp)
        · simp only [Option.some.injEq, Prod.mk.injEq] at h
          obtain ⟨h1, -, -⟩ := h
          rw [← h1]
          exact ⟨rfl, rfl, rfl⟩
      · exact absurd h (by simp)

theorem SwitchInvS_portModify (st : TopoState) (d q : Nat) (f : OpenFlowPort → OpenFlowPort)
    (h : SwitchInvS st.store) : SwitchInvS (portModify st d q f).store := by
  unfold portModify
  cases hsw : lookupA st.store d with
  | none => exact h
  | some sw =>
    dsimp only
    cases hpe : lookupA sw.ports q with
    | none => exact h
    | some pe =>
      dsimp only
      exact SwitchInvS_insert _ _ _ h (h (d, sw) (lookupA_mem _ _ _ hsw))

theorem SwitchInvS_connUp (st : TopoState) (dpid c : Nat) (ofp : OFFeaturesReply)
    (h : SwitchInvS st.store) :
    SwitchInvS ((_handle_openflow_ConnectionUp st dpid c ofp).getD st).store := by
  cases hup : _handle_openflow_ConnectionUp st dpid c ofp with
  | none => exact h
  | some st' =>
    cases hl : lookupA st.store dpid with
    | none =>
      obtain ⟨sw, f, _, hst', _, hconn, _, hlis⟩ :=
        _handle_openflow_ConnectionUp_new st st' dpid c ofp hl hup
      subst hst'
      exact SwitchInvS_insert _ _ _ h
        ⟨(fun hcon => by simp [hconn] at hcon), (by simp [hlis, hconn])⟩
    | some sw0 =>
      obtain ⟨sw, f, _, hst', _, hconn, _, hlis⟩ :=
        _handle_openflow_ConnectionUp_existing st st' dpid c ofp sw0 hl hup
      subst hst'
      exact SwitchInvS_insert _ _ _ h
        ⟨(fun hcon => by simp [hconn] at hcon), (by simp [hlis, hconn])⟩

theorem SwitchInvS_connDown (st : TopoState) (dpid : Nat)
    (h : SwitchInvS st.store) : SwitchInvS (connectionDownEvent st dpid).store := by
  unfold connectionDownEvent
  cases hsw : lookupA st.store dpid with
  | none =>
    dsimp only
    unfold _handle_openflow_ConnectionDown
    rw [hsw]
    exact h
  | some sw =>
    dsimp only
    by_cases hl : sw._listeners = true
    · rw [if_pos hl, _setConnection_none_none]
      dsimp only
      unfold _handle_openflow_ConnectionDown
      rw [lookupA_insertA_self]
      dsimp only
      rw [insertA_insertA]
      exact SwitchInvS_insert _ _ _ h ⟨fun _ => by simp, by simp⟩
    · rw [if_neg hl]
      unfold _handle_openflow_ConnectionDown
      rw [hsw]
      dsimp only
      have hinv := h (dpid, sw) (lookupA_mem _ _ _ hsw)
      have hlis : sw._listeners = false := by
        cases hb : sw._listeners with
        | false => rfl
        | true => exact absurd hb hl
      have hcn : sw.connection = none := by
        cases hc : sw.connection with
        | none => rfl
        | some c =>
          rw [hlis, hc] at hinv
          exact absurd hinv.2.symm (by simp)
      refine SwitchInvS_insert _ _ _ h ⟨fun _ => ?_, ?_⟩
      · exact hinv.1 hcn
      · rw [hlis]
        rfl

theorem SwitchInvS_timerFire (st : TopoState) (dpid tid : Nat)
    (h : SwitchInvS st.store) : SwitchInvS (fireReconnectTimeout st dpid tid).store := by
  unfold fireReconnectTimeout
  cases hsw : lookupA st.store dpid with
  | none => exact h
  | some sw =>
    dsimp only
    by_cases ht : sw._reconnectTimeout = some tid
    · rw [if_pos ht]
      intro kv hkv
      exact h kv (mem_eraseA _ _ _ hkv)
    · rw [if_neg ht]
      exact h

theorem SwitchInvS_linkEv (st : TopoState) (l : Link) (added : Bool)
    (h : SwitchInvS st.store) :
    SwitchInvS ((_handle_openflow_discovery_LinkEvent st l added).getD st).store := by
  unfold _handle_openflow_discovery_LinkEvent
  cases h1 : lookupA st.store l.dpid1 with
  | none => exact h
  | some sw1 =>
    dsimp only
    cases h2 : lookupA st.store l.dpid2 with
    | none => exact h
    | some sw2 =>
      dsimp only
      by_cases hg : ((lookupA sw1.ports l.port1).isNone ||
          (lookupA sw2.ports l.port2).isNone) = true
      · rw [if_pos hg]
        exact h
      · rw [if_neg hg]
        by_cases ha : added = true
        · rw [if_pos ha]
          exact SwitchInvS_portModify _ _ _ _ (SwitchInvS_portModify _ _ _ _ h)
        · rw [if_neg ha]
          cases hp1 : lookupA sw1.ports l.port1 with
          | none => exact h
          | some pe1 =>
            dsimp only
            cases hr1 : pe1.entitiesRemove sw2.sid with
            | none => exact h
            | some pe1' =>
              dsimp only
              have hmid : SwitchInvS (insertA st.store l.dpid1
                  { sw1 with ports := insertA sw1.ports l.port1 pe1' }) :=
                SwitchInvS_insert _ _ _ h (h (l.dpid1, sw1) (lookupA_mem _ _ _ h1))
              cases h2' : lookupA (insertA st.store l.dpid1
                  { sw1 with ports := insertA sw1.ports l.port1 pe1' }) l.dpid2 with
              | none => exact hmid
              | some sw2' =>
                dsimp only
                cases hp2 : lookupA sw2'.ports l.port2 with
                | none => exact hmid
                | some pe2 =>
                  dsimp only
                  cases hr2 : pe2.entitiesRemove sw1.sid with
                  | none => exact h
                  | some pe2' =>
                    dsimp only
                    exact SwitchInvS_insert _ _ _ hmid
                      (hmid (l.dpid2, sw2') (lookupA_mem _ _ _ h2'))

theorem SwitchInvS_linkEventPartial (st : TopoState) (l : Link)
    (h : SwitchInvS st.store) : SwitchInvS (linkEventPartial st l).store := by
  unfold linkEventPartial
  cases h1 : lookupA st.store l.dpid1 with
  | none => exact h
  | some sw1 =>
    dsimp only
    cases h2 : lookupA st.store l.dpid2 with
    | none => exact h
    | some sw2 =>
      dsimp only
      cases hp1 : lookupA sw1.ports l.port1 with
      | none => exact h
      | some pe1 =>
        dsimp only
        cases hr1 : pe1.entitiesRemove sw2.sid with
        | none => exact h
        | some pe1' =>
          dsimp only
          exact SwitchInvS_insert _ _ _ h (h (l.dpid1, sw1) (lookupA_mem _ _ _ h1))

theorem SwitchInvS_step (st : TopoState) (op : TopoOp) (hok : stepOk st op)
    (h : SwitchInvS st.store) : SwitchInvS (topoStep st op).store := by
  cases op with
  | connUp dpid conn ofp =>
    unfold topoStep
    dsimp only
    cases hup : _handle_openflow_ConnectionUp st dpid conn ofp with
    | some st' =>
      have hx := SwitchInvS_connUp st dpid conn ofp h
      rw [hup] at hx
      exact hx
    | none =>
      exfalso
      have hok' : (_handle_openflow_ConnectionUp st dpid conn ofp).isSome = true := hok
      rw [hup] at hok'
      simp at hok'
  | connDown dpid => exact SwitchInvS_connDown st dpid h
  | timerFire dpid tid => exact SwitchInvS_timerFire st dpid tid h
  | linkEv l added =>
    unfold topoStep
    dsimp only
    cases hl : _handle_openflow_discovery_LinkEvent st l added with
    | some st' =>
      have hx := SwitchInvS_linkEv st l added h
      rw [hl] at hx
      exact hx
    | none => exact SwitchInvS_linkEventPartial st l h
  | portStatus dpid reason p =>
    unfold topoStep
    dsimp only
    cases hsw : lookupA st.store dpid with
    | none => exact h
    | some sw =>
      dsimp only
      cases hps : sw._handle_con_PortStatus reason p st.nextId with
      | none => exact h
      | some res =>
        obtain ⟨sw', rem, f'⟩ := res
        dsimp only
        obtain ⟨hc, hl, ht⟩ := _handle_con_PortStatus_fields sw reason p st.nextId sw' rem f' hps
        have hinv := h (dpid, sw) (lookupA_mem _ _ _ hsw)
        refine SwitchInvS_insert _ _ _ h ⟨?_, ?_⟩
        · intro hcon
          rw [ht]
          rw [hc] at hcon
          exact hinv.1 hcon
        · rw [hl, hc]
          exact hinv.2

theorem SwitchInvS_run (ops : List TopoOp) (hok : runOk initTopoState ops) :
    SwitchInvS (topoRun ops).store := by
  unfold topoRun
  have hgen : ∀ st, runOk st ops → SwitchInvS st.store →
      SwitchInvS (ops.foldl topoStep st).store := by
    clear hok
    induction ops with
    | nil => intro st _ h; exact h
    | cons op ops ih =>
      intro st hok h
      exact ih (topoStep st op) hok.2 (SwitchInvS_step st op hok.1 h)
  exact hgen initTopoState hok (by intro kv hkv; simp [initTopoState] at hkv)

/-- C3 counterexample: the claimed invariant fails on the error path.
Switch 1 connects with a port named eth0; a second connection up whose
handshake renames that port makes `_update` raise mid-`_setConnection`,
after the new handle is already installed and the listeners already
stripped; the following connection down then finds a switch observing no
connection, so only `_handle_openflow_ConnectionDown` runs, clearing the
handle without arming a timer: the entity stays registered with no live
connection handle and no pending reconnect timer. -/
theorem C3_counterexample :
    ∃ sw, lookupA (topoRun
      [TopoOp.connUp 1 10 ⟨0, [⟨1, 5, "eth0", 0, 0⟩]⟩,
       TopoOp.connUp 1 11 ⟨0, [⟨1, 5, "ethX", 0, 0⟩]⟩,
       TopoOp.connDown 1]).store 1 = some sw ∧
      sw.connection = none ∧ sw._reconnectTimeout = none :=
  ⟨_, rfl, rfl, rfl⟩

/-- C3 (amended): in every state reachable without a connection-up
handler raising from its port reconciliation, a stored switch entity
with no live connection handle has a pending reconnect timer (entities
with neither are precisely the ones already removed from the store);
and processing a connection-down for a present switch observing its
connection clears the connection handle, drops the per-connection
listeners, and arms a one-shot reconnect timer.  (A raising
reconciliation instead leaves the entity connected but unobserved, and
the next disconnect strands it with neither handle nor timer; see the
counterexample.) -/
theorem C3_disconnected_timer_error_free :
    (∀ ops : List TopoOp, runOk initTopoState ops →
      ∀ kv ∈ (topoRun ops).store,
        kv.2.connection = none → kv.2._reconnectTimeout ≠ none) ∧
    (∀ (st : TopoState) (dpid : Nat) (sw : OpenFlowSwitch),
      lookupA st.store dpid = some sw → sw._listeners = true →
      ∃ sw', lookupA (connectionDownEvent st dpid).store dpid = some sw' ∧
        sw'.connection = none ∧ sw'._listeners = false ∧
        sw'._reconnectTimeout = some st.nextId) := by
  constructor
  · intro ops hok kv hkv hcon
    exact ((SwitchInvS_run ops hok) kv hkv).1 hcon
  · intro st dpid sw hsw hl
    rw [connectionDownEvent_connected st dpid sw hsw hl]
    dsimp only
    exact ⟨_, lookupA_insertA_self _ _ _, rfl, rfl, rfl⟩

/-- Witness for C3 (amended): the error-free run connect-then-disconnect
of switch 1 leaves a stored entity with no connection and a pending
timer, and a concrete disconnect produces the cleared handle, dropped
listeners and armed timer. -/
theorem C3_witness :
    (({ sid := 0, dpid := 1, ports := [], capabilities := 0, connection := none,
        _listeners := false, _reconnectTimeout := some 1 } :
          OpenFlowSwitch).connection = none →
      ({ sid := 0, dpid := 1, ports := [], capabilities := 0, connection := none,
         _listeners := false, _reconnectTimeout := some 1 } :
          OpenFlowSwitch)._reconnectTimeout ≠ none) ∧
    (∃ sw', lookupA (connectionDownEvent
      { store := [(1, { sid := 0, dpid := 1, ports := [], capabilities := 0,
                        connection := some 10, _listeners := true,
                        _reconnectTimeout := none })],
        nextId := 1, events := [] } 1).store 1 = some sw' ∧
      sw'.connection = none ∧ sw'._listeners = false ∧
      sw'._reconnectTimeout = some 1) :=
  ⟨C3_disconnected_timer_error_free.1
      [TopoOp.connUp 1 10 ⟨0, []⟩, TopoOp.connDown 1]
      ⟨rfl, trivial, trivial⟩
      (1, { sid := 0, dpid := 1, ports := [], capabilities := 0, connection := none,
            _listeners := false, _reconnectTimeout := some 1 })
      (by decide),
    C3_disconnected_timer_error_free.2
      { store := [(1, { sid := 0, dpid := 1, ports := [], capabilities := 0,
                        connection := some 10, _listeners := true,
                        _reconnectTimeout := none })],
        nextId := 1, events := [] } 1 _ rfl rfl⟩

/-! ## Dependency gate resolution -/

theorem _resolveComponents_of_ready (a : AdaptorState) (reg : List String)
    (h : gateReady a = true) :
    (_resolveComponents a reg).2 = true ∧
    gateReady (_resolveComponents a reg).1 = true ∧
    (_resolveComponents a reg).1.readyLogs = a.readyLogs ∧
    (_resolveComponents a reg).1.listeningCore = a.listeningCore := by
  unfold gateReady at h
  unfold _resolveComponents
  cases hw : a._wantComponents with
  | none => simp [gateReady, hw]
  | some ws =>
    rw [hw] at h
    dsimp only
    rw [if_pos h]
    simp [gateReady]

/-- C7 counterexample: the claim says no inbound adaptor event mutates
entity state before the gate is ready, but `_resolveComponents` starts
listening to each component as soon as that one component is bound: with
openflow and topology bound but the discovery component still missing
(gate not ready), a ConnectionUp is processed in full and registers a
new entity in the topology store. -/
theorem C7_counterexample :
    gateReady { _wantComponents := some ["openflow_discovery"],
                bound := ["openflow", "topology"], listeningCore := true,
                readyLogs := 0, topo := initTopoState } = false ∧
    ∃ a', adaptor_ConnectionUp
      { _wantComponents := some ["openflow_discovery"],
        bound := ["openflow", "topology"], listeningCore := true,
        readyLogs := 0, topo := initTopoState } 1 7 ⟨0, []⟩ = some a' ∧
      lookupA a'.topo.store 1 ≠ none :=
  ⟨by decide,
    (adaptor_ConnectionUp
      { _wantComponents := some ["openflow_discovery"],
        bound := ["openflow", "topology"], listeningCore := true,
        readyLogs := 0, topo := initTopoState } 1 7 ⟨0, []⟩).getD
      { _wantComponents := some ["openflow_discovery"],
        bound := ["openflow", "topology"], listeningCore := true,
        readyLogs := 0, topo := initTopoState },
    rfl, by decide⟩

/-- C7 (amended): the gate's readiness is monotone and signalled once:
once ready, a component-registration event keeps it ready, resolution
reports success immediately when the required set is empty, no further
"ready" transition is logged after readiness, and a successful
resolution from a registration event detaches the registration listener.
Link-discovery events arriving while the topology store is unbound are
silently dropped with no mutation.  However, per-component listening
starts before full readiness: a connection up delivered while the
protocol component is bound but the topology store is not raises an
error (`AttributeError`) rather than being silently ignored, and one
delivered with topology bound but discovery missing is processed in
full (see the counterexample). -/
theorem C7_gate_ready_once :
    (∀ (a : AdaptorState) (reg : List String), gateReady a = true →
      gateReady (_handle_ComponentRegistered a reg) = true) ∧
    (∀ (a : AdaptorState) (reg : List String), a._wantComponents = some [] →
      (_resolveComponents a reg).2 = true) ∧
    (∀ (a : AdaptorState) (reg : List String), gateReady a = true →
      (_resolveComponents a reg).1.readyLogs = a.readyLogs) ∧
    (∀ (a : AdaptorState) (reg : List String), a.listeningCore = true →
      (_resolveComponents a reg).2 = true →
      (_handle_ComponentRegistered a reg).listeningCore = false) ∧
    (∀ (a : AdaptorState) (l : Link) (added : Bool),
      a.bound.contains "topology" = false →
      adaptor_LinkEvent a l added = some a) ∧
    (∀ (a : AdaptorState) (dpid c : Nat) (ofp : OFFeaturesReply),
      a.bound.contains "openflow" = true →
      a.bound.contains "topology" = false →
      adaptor_ConnectionUp a dpid c ofp = none) := by
  refine ⟨?_, ?_, ?_, ?_, ?_, ?_⟩
  · intro a reg hready
    unfold _handle_ComponentRegistered
    by_cases hlc : a.listeningCore = true
    · rw [if_pos hlc]
      obtain ⟨hr2, hr1, -, -⟩ := _resolveComponents_of_ready a reg hready
      rcases hres : _resolveComponents a reg with ⟨a', r⟩
      rw [hres] at hr2 hr1
      dsimp only at hr2 hr1
      dsimp only
      rw [hr2, if_pos rfl]
      unfold gateReady at hr1 ⊢
      dsimp only
      exact hr1
    · rw [if_neg hlc]
      exact hready
  · intro a reg hw
    unfold _resolveComponents
    rw [hw]
    simp
  · intro a reg hready
    exact (_resolveComponents_of_ready a reg hready).2.2.1
  · intro a reg hlc hr
    unfold _handle_ComponentRegistered
    rw [if_pos hlc]
    rcases hres : _resolveComponents a reg with ⟨a', r⟩
    rw [hres] at hr
    dsimp only at hr
    dsimp only
    rw [hr, if_pos rfl]
  · intro a l added ht
    unfold adaptor_LinkEvent
    by_cases hd : a.bound.contains "openflow_discovery" = true
    · rw [hd, ht]
      rfl
    · rw [Bool.not_eq_true] at hd
      rw [hd]
      rfl
  · intro a dpid c ofp ho ht
    unfold adaptor_ConnectionUp
    rw [ho, ht]
    rfl

/-- Witness for C7 (amended): a ready gate stays ready across a
registration event, and a connection up with openflow bound but topology
unbound errors. -/
theorem C7_witness :
    gateReady (_handle_ComponentRegistered
      { _wantComponents := none, bound := ["openflow", "topology", "openflow_discovery"],
        listeningCore := true, readyLogs := 1, topo := initTopoState }
      ["topology"]) = true ∧
    adaptor_ConnectionUp
      { _wantComponents := some ["topology", "openflow_discovery"], bound := ["openflow"],
        listeningCore := true, readyLogs := 0, topo := initTopoState } 1 7 ⟨0, []⟩ =
      none :=
  ⟨C7_gate_ready_once.1
      { _wantComponents := none, bound := ["openflow", "topology", "openflow_discovery"],
        listeningCore := true, readyLogs := 1, topo := initTopoState }
      ["topology"] (by decide),
    C7_gate_ready_once.2.2.2.2.2
      { _wantComponents := some ["topology", "openflow_discovery"], bound := ["openflow"],
        listeningCore := true, readyLogs := 0, topo := initTopoState }
      1 7 ⟨0, []⟩ (by decide) (by decide)⟩
